import Mathlib

/-!
MyGS: the drawing system's frame loop, configuration pipeline and matrices.

A shallow embedding of `Engine/Common/DrawingSystem.cpp` and of the Schlick
`reflectance` of `MiniRaytracing/MaterialDielectric.cpp`.

* Scalars (`float`, `FLOAT`) are elements of a field `K`; the theorems about
  matrices take `K = ℝ`, the definitions also run over `ℚ`.
* The C library functions (`cosf`, `sinf`, `tanf`, the square root behind
  `Vec::Normalize`) and the constant `PI_F` come in through `FloatOps`.
* Calls on the external collaborators (device, context, resource table,
  renderers) are recorded, in order, in the ghost field `log` of the system.
* A null dereference or a failed `assert` is the result `none`.
-/

namespace Engine

/-! ## Vectors and matrices -/

/-- Three-component vector (`float3`). -/
structure float3 (K : Type) where
  x : K
  y : K
  z : K
deriving DecidableEq, Repr

/-- Four-component vector (`float4`), used for colours. -/
structure float4 (K : Type) where
  x : K
  y : K
  z : K
  w : K
deriving DecidableEq, Repr

/-- Row-major 4x4 matrix (`float4x4`). -/
abbrev float4x4 (K : Type) := Matrix (Fin 4) (Fin 4) K

/-- The library functions and constants the source takes from `<cmath>` and the math header. -/
structure FloatOps (K : Type) where
  cosf : K → K
  sinf : K → K
  tanf : K → K
  sqrtf : K → K
  PI_F : K

/-- Componentwise difference, the `at - pos` of `UpdateViewMatrix`. -/
def float3.sub {K : Type} [Field K] (a b : float3 K) : float3 K :=
  ⟨a.x - b.x, a.y - b.y, a.z - b.z⟩

/-- Componentwise negation, the `-x` of `UpdateViewMatrix`. -/
def float3.neg {K : Type} [Field K] (a : float3 K) : float3 K :=
  ⟨-a.x, -a.y, -a.z⟩

namespace Vec

/-- Modelled from the spec: `Vec::Dot`, the Euclidean inner product (the math header is not
among the sources). -/
def Dot {K : Type} [Field K] (a b : float3 K) : K :=
  a.x * b.x + a.y * b.y + a.z * b.z

/-- Modelled from the spec: `Vec::Cross`, the vector product (the math header is not among
the sources). -/
def Cross {K : Type} [Field K] (a b : float3 K) : float3 K :=
  ⟨a.y * b.z - a.z * b.y, a.z * b.x - a.x * b.z, a.x * b.y - a.y * b.x⟩

/-- Modelled from the spec: `Vec::Normalize`, the vector divided by its Euclidean length
(the math header is not among the sources). -/
def Normalize {K : Type} [Field K] (ops : FloatOps K) (a : float3 K) : float3 K :=
  ⟨a.x / ops.sqrtf (Dot a a), a.y / ops.sqrtf (Dot a a), a.z / ops.sqrtf (Dot a a)⟩

end Vec

namespace Mat

/-- Modelled from the spec: `Mat::Mul`, the ordinary product of two 4x4 matrices (the math
header is not among the sources). -/
def Mul {K : Type} [Field K] (a b : float4x4 K) : float4x4 K :=
  a * b

end Mat

/-! ## Components -/

/-- Renderer-type selector (`ERendererType`), an enumeration value. -/
abbrev ERendererType := Nat

/-- The fields of `TransformComponent` read by the drawing system. -/
structure TransformComponent (K : Type) where
  position : float3 K
  rotate : float3 K
  scale : float3 K
deriving DecidableEq, Repr

/-- The fields of `CameraComponent` read by the drawing system. -/
structure CameraComponent (K : Type) where
  fov : K
  clippingNear : K
  clippingFar : K
  background : float4 K
  rendererType : ERendererType
deriving DecidableEq, Repr

/-! ## Matrix construction -/

/-- World matrix of a transform: `DrawingSystem::UpdateWorldMatrix`. -/
def UpdateWorldMatrix {K : Type} [Field K] (ops : FloatOps K)
    (pTransform : TransformComponent K) : float4x4 K :=
  let position := pTransform.position
  let rotate := pTransform.rotate
  let scale := pTransform.scale
  let cosR := ops.cosf rotate.y
  let sinR := ops.sinf rotate.y
  let posMatrix : float4x4 K :=
    !![1, 0, 0, 0;
       0, 1, 0, 0;
       0, 0, 1, 0;
       position.x, position.y, position.z, 1]
  let rotMatrix : float4x4 K :=
    !![cosR, 0, sinR, 0;
       0, 1, 0, 0;
       -sinR, 0, cosR, 0;
       0, 0, 0, 1]
  let scaleMatrix : float4x4 K :=
    !![scale.x, 0, 0, 0;
       0, scale.y, 0, 0;
       0, 0, scale.z, 0;
       0, 0, 0, 1]
  Mat.Mul scaleMatrix (Mat.Mul rotMatrix posMatrix)

/-- View matrix of a camera transform: `DrawingSystem::UpdateViewMatrix`. -/
def UpdateViewMatrix {K : Type} [Field K] (ops : FloatOps K)
    (pTransform : TransformComponent K) : float4x4 K :=
  let pos := pTransform.position
  let target : float3 K := ⟨0, 0, 1⟩
  let up : float3 K := ⟨0, 1, 0⟩
  let z := Vec.Normalize ops (target.sub pos)
  let x := Vec.Normalize ops (Vec.Cross up z)
  let y := Vec.Cross z x
  !![x.x, y.x, z.x, 0;
     x.y, y.y, z.y, 0;
     x.z, y.z, z.z, 0;
     Vec.Dot x.neg pos, Vec.Dot y.neg pos, Vec.Dot z.neg pos, 1]

/-- Projection matrix of a camera: `DrawingSystem::UpdateProjectionMatrix`; `width` and
`height` are the integers read from the application configuration. -/
def UpdateProjectionMatrix {K : Type} [Field K] (ops : FloatOps K) (width height : Int)
    (pCamera : CameraComponent K) : float4x4 K :=
  let fovy := pCamera.fov
  let zn := pCamera.clippingNear
  let zf := pCamera.clippingFar
  let aspect : K := (width : K) / (height : K)
  let d2r : K := ops.PI_F / 180
  let yScale : K := 1 / ops.tanf (d2r * fovy / 2)
  let xScale : K := yScale / aspect
  !![xScale, 0, 0, 0;
     0, yScale, 0, 0;
     0, 0, zf / (zf - zn), 1;
     0, 0, -zn * zf / (zf - zn), 0]

/-- The translation matrix of the row-vector convention, as the specification names it. -/
def specTranslate {K : Type} [Field K] (p : float3 K) : float4x4 K :=
  !![1, 0, 0, 0;
     0, 1, 0, 0;
     0, 0, 1, 0;
     p.x, p.y, p.z, 1]

/-- The rotation about the vertical axis by the angle `θ`, as the specification names it. -/
def specRotateY {K : Type} [Field K] (ops : FloatOps K) (θ : K) : float4x4 K :=
  !![ops.cosf θ, 0, ops.sinf θ, 0;
     0, 1, 0, 0;
     -ops.sinf θ, 0, ops.cosf θ, 0;
     0, 0, 0, 1]

/-- The scaling matrix, as the specification names it. -/
def specScale {K : Type} [Field K] (s : float3 K) : float4x4 K :=
  !![s.x, 0, 0, 0;
     0, s.y, 0, 0;
     0, 0, s.z, 0;
     0, 0, 0, 1]

end Engine

namespace MiniRaytracing

/-- Schlick reflectance: `reflectance` of `MaterialDielectric.cpp`, with `pow(_, 5)` the
fifth power. -/
def reflectance {K : Type} [Field K] (cosine ior : K) : K :=
  let r0 := (1 - ior) / (1 + ior)
  let r0 := r0 * r0
  r0 + (1 - r0) * (1 - cosine) ^ 5

end MiniRaytracing

namespace Engine

/-! ## Entities, handles and the external collaborators -/

/-- Identity of a renderer instance (`IRenderer`). -/
abbrev IRenderer := Nat

/-- Handle of a mesh asset (`IMesh`). -/
abbrev IMesh := Nat

/-- Handle of a swap chain or render target (`DrawingTarget`). -/
abbrev DrawingTarget := Nat

/-- Handle of a depth buffer (`DrawingDepthBuffer`). -/
abbrev DrawingDepthBuffer := Nat

/-- Native window handle. -/
abbrev WindowHandle := Nat

/-- Backend selector (`EConfigurationDeviceType`); `unsupported` stands for every value
other than the two the switch of `CreateDevice` handles. -/
inductive EConfigurationDeviceType where
  | eDevice_D3D11
  | eDevice_D3D12
  | unsupported (code : Nat)
deriving DecidableEq, Repr

/-- Modelled from the spec: the multisample setting `EMSAA`, of which the source names only
`eMSAA_Disable`. -/
inductive EMSAA where
  | eMSAA_Disable
  | enabled (samples : Nat)
deriving DecidableEq, Repr

/-- The two pixel formats the source uses. -/
inductive EDrawingFormatType where
  | eFormat_R8G8B8A8_UNORM
  | eFormat_D24S8
deriving DecidableEq, Repr

/-- The clear flag the source passes to `ClearDepthBuffer`. -/
inductive EClearFlag where
  | eClear_Depth
deriving DecidableEq, Repr

/-- Descriptor of a swap chain (`DrawingTargetDesc`). -/
structure DrawingTargetDesc where
  mHwnd : Option WindowHandle
  mWidth : Int
  mHeight : Int
  mFormat : EDrawingFormatType
  mMultiSampleCount : EMSAA
  mMultiSampleQuality : Nat
deriving DecidableEq, Repr

/-- Descriptor of a depth buffer (`DrawingDepthBufferDesc`). -/
structure DrawingDepthBufferDesc where
  mWidth : Int
  mHeight : Int
  mFormat : EDrawingFormatType
  mMultiSampleCount : EMSAA
  mMultiSampleQuality : Nat
deriving DecidableEq, Repr

/-- The field of `MeshFilterComponent` read by the drawing system. -/
structure MeshFilterComponent where
  mesh : IMesh
deriving DecidableEq, Repr

/-- An entity as the drawing system sees it: `GetComponent<T>` yields the component or null,
`HasComponent<T>` tells whether it is there. `id` is the identity of the object. -/
structure IEntity (K : Type) where
  id : Nat
  camera : Option (CameraComponent K)
  transform : Option (TransformComponent K)
  meshFilter : Option MeshFilterComponent

/-- The process-wide object behind `gpGlobal`: application and graphics configuration and the
renderer catalog. -/
structure Global where
  width : Int
  height : Int
  appHandle : Option WindowHandle
  msaa : EMSAA
  deviceType : EConfigurationDeviceType
  GetRenderer : ERendererType → Option IRenderer

/-- What lies outside the drawing system: the global pointer, the bounds of the renderer-type
enumeration, and the answers of the device and of the resource table. -/
structure Env where
  gpGlobal : Option Global
  eRenderer_Start : Nat
  eRenderer_End : Nat
  CreateTarget : DrawingTargetDesc → Bool × Option DrawingTarget
  CreateDepthBuffer : DrawingDepthBufferDesc → Bool × Option DrawingDepthBuffer
  BuildResources : Bool

/-- A call issued on the device, the context, the resource factory, the resource table or a
renderer. -/
inductive Call (K : Type) where
  | DeviceInitialize
  | CreateTarget (desc : DrawingTargetDesc)
  | CreateDepthBuffer (desc : DrawingDepthBufferDesc)
  | ClearTarget (target : Option DrawingTarget) (color : float4 K)
  | ClearDepthBuffer (buffer : Option DrawingDepthBuffer) (depth : K) (stencil : Nat)
      (flag : EClearFlag)
  | Present (target : Option DrawingTarget) (syncInterval : Nat)
  | Flush
  | SetSwapChain (target : Option DrawingTarget)
  | SetDepthBuffer (buffer : Option DrawingDepthBuffer)
  | SetViewport (minX minY maxX maxY : K)
  | UpdateTargets
  | UpdateContext
  | UpdateCamera (proj view : float4x4 K)
  | UpdateTransform (world : float4x4 K)
  | SetEffectPool
  | BuildResources
  | AttachDevice (r : IRenderer)
  | DefineResources (r : IRenderer)
  | SetupStages (r : IRenderer)
  | CreateDataResources (r : IRenderer)
  | MapResources (r : IRenderer)
  | BeginDrawPass (r : IRenderer)
  | AttachMesh (r : IRenderer) (mesh : IMesh)
  | FlushData (r : IRenderer)
  | Draw (r : IRenderer)
  | ResetData (r : IRenderer)
  | EndDrawPass (r : IRenderer)

/-- Modelled from the spec: the part of `DrawingContext` the drawing system reads back, the
swap chain and depth buffer last set (both null in a fresh context). -/
structure DrawingContext where
  swapChain : Option DrawingTarget
  depthBuffer : Option DrawingDepthBuffer
deriving DecidableEq, Repr

/-- The members of `DrawingSystem`, and the ghost `log` of the calls issued so far. A pointer
member is `none` when null. -/
structure DrawingSystem (K : Type) where
  m_window : Option WindowHandle
  m_deviceSize : Int × Int
  m_deviceType : EConfigurationDeviceType
  m_pDevice : Option EConfigurationDeviceType
  m_pContext : Option DrawingContext
  m_pEffectPool : Option Unit
  m_pResourceFactory : Option Unit
  m_pResourceTable : Option Unit
  m_rendererTable : List (ERendererType × Option IRenderer)
  m_pCameraList : List (IEntity K)
  m_pMeshList : List (IEntity K)
  log : List (Call K)

/-- The constructor `DrawingSystem::DrawingSystem`. -/
def DrawingSystem.new {K : Type} (g : Global) : DrawingSystem K :=
  { m_window := none
    m_deviceSize := (0, 0)
    m_deviceType := g.deviceType
    m_pDevice := none
    m_pContext := none
    m_pEffectPool := none
    m_pResourceFactory := none
    m_pResourceTable := none
    m_rendererTable := []
    m_pCameraList := []
    m_pMeshList := []
    log := [] }

/-- Record one call at the end of the log. -/
def emit {K : Type} (c : Call K) (s : DrawingSystem K) : DrawingSystem K :=
  { s with log := s.log ++ [c] }

/-- Record a run of calls at the end of the log. -/
def emitAll {K : Type} (cs : List (Call K)) (s : DrawingSystem K) : DrawingSystem K :=
  { s with log := s.log ++ cs }

/-! ## The frame loop -/

/-- The inner loop of `DrawingSystem::Tick` over the mesh list, for the renderer of the
current camera. -/
def drawMeshes {K : Type} [Field K] (ops : FloatOps K) (pRenderer : IRenderer) :
    List (IEntity K) → DrawingSystem K → Option (DrawingSystem K)
  | [], s => some s
  | pEntity :: rest, s => do
    let pTrans ← pEntity.transform
    let pMesh ← pEntity.meshFilter
    let trans := UpdateWorldMatrix ops pTrans
    let _ ← s.m_pContext
    let _ ← s.m_pResourceTable
    let s := emit (.UpdateTransform trans) s
    let s := emit (.BeginDrawPass pRenderer) s
    let s := emit (.AttachMesh pRenderer pMesh.mesh) s
    let s := emit (.FlushData pRenderer) s
    let s := emit (.Draw pRenderer) s
    let s := emit (.ResetData pRenderer) s
    let s := emit (.EndDrawPass pRenderer) s
    drawMeshes ops pRenderer rest s

/-- The outer loop of `DrawingSystem::Tick` over the camera list. -/
def tickCameras {K : Type} [Field K] (env : Env) (ops : FloatOps K) :
    List (IEntity K) → DrawingSystem K → Option (DrawingSystem K)
  | [], s => some s
  | camera :: rest, s => do
    let pCameraComponent ← camera.camera
    let pTransformComponent ← camera.transform
    let g ← env.gpGlobal
    let proj := UpdateProjectionMatrix ops g.width g.height pCameraComponent
    let view := UpdateViewMatrix ops pTransformComponent
    let ctx ← s.m_pContext
    let _ ← s.m_pResourceTable
    let s := emit .UpdateContext s
    let s := emit (.UpdateCamera proj view) s
    let _ ← s.m_pDevice
    let s := emit (.ClearTarget ctx.swapChain pCameraComponent.background) s
    let s := emit (.ClearDepthBuffer ctx.depthBuffer 1 0 .eClear_Depth) s
    match g.GetRenderer pCameraComponent.rendererType with
    | none => tickCameras env ops rest s
    | some pRenderer => do
      let s ← drawMeshes ops pRenderer s.m_pMeshList s
      tickCameras env ops rest s

/-- One frame: `DrawingSystem::Tick`. -/
def Tick {K : Type} [Field K] (env : Env) (ops : FloatOps K) (_elapsedTime : K)
    (s : DrawingSystem K) : Option (DrawingSystem K) := do
  let s ← tickCameras env ops s.m_pCameraList s
  let _ ← s.m_pDevice
  let ctx ← s.m_pContext
  some (emit (.Present ctx.swapChain 0) s)

/-- Classify an entity into the camera and mesh lists: `DrawingSystem::FlushEntity`. -/
def FlushEntity {K : Type} (pEntity : IEntity K) (s : DrawingSystem K) : DrawingSystem K :=
  let s := if pEntity.camera.isSome && pEntity.transform.isSome then
      { s with m_pCameraList := s.m_pCameraList ++ [pEntity] } else s
  let s := if pEntity.meshFilter.isSome && pEntity.transform.isSome then
      { s with m_pMeshList := s.m_pMeshList ++ [pEntity] } else s
  s

/-- Accessor `DrawingSystem::GetDeviceType`. -/
def GetDeviceType {K : Type} (s : DrawingSystem K) : EConfigurationDeviceType :=
  s.m_deviceType

/-- Mutator `DrawingSystem::SetDeviceType`. -/
def SetDeviceType {K : Type} (type : EConfigurationDeviceType) (s : DrawingSystem K) :
    DrawingSystem K :=
  { s with m_deviceType := type }

/-- Release the renderer registry: `DrawingSystem::Shutdown`. -/
def Shutdown {K : Type} (s : DrawingSystem K) : DrawingSystem K :=
  { s with m_rendererTable := [] }

/-! ## The configuration pipeline -/

/-- Stage 1: `DrawingSystem::PreConfiguration`. -/
def PreConfiguration {K : Type} (env : Env) (s : DrawingSystem K) :
    Option (Bool × DrawingSystem K) :=
  match env.gpGlobal with
  | none => some (false, s)
  | some g =>
    let s := { s with m_deviceSize := (g.width, s.m_deviceSize.2) }
    let s := { s with m_deviceSize := (s.m_deviceSize.1, g.height) }
    let s := { s with m_window := g.appHandle }
    some (true, s)

/-- Stage 2: `DrawingSystem::CreateDevice`; the default branch is the failed assertion. -/
def CreateDevice {K : Type} (s : DrawingSystem K) : Option (Bool × DrawingSystem K) := do
  let s ← match s.m_deviceType with
    | .eDevice_D3D11 => some { s with m_pDevice := some .eDevice_D3D11 }
    | .eDevice_D3D12 => some { s with m_pDevice := some .eDevice_D3D12 }
    | .unsupported _ => none
  let _ ← s.m_pDevice
  let s := emit .DeviceInitialize s
  let s := { s with m_pContext := some ⟨none, none⟩ }
  some (true, s)

/-- Stage 3: `DrawingSystem::CreatePreResource`. -/
def CreatePreResource {K : Type} (s : DrawingSystem K) : Option (Bool × DrawingSystem K) := do
  let s := { s with m_pEffectPool := some () }
  let s := { s with m_pResourceFactory := some () }
  let _ ← s.m_pResourceFactory
  let s := { s with m_pResourceTable := some () }
  let _ ← s.m_pResourceFactory
  let s := emit .SetEffectPool s
  some (true, s)

/-- Modelled from the spec: `RendererTable::emplace` on the registry, which keeps an entry
already stored under the key and adds the pair otherwise. -/
def emplace (table : List (ERendererType × Option IRenderer)) (type : ERendererType)
    (pRenderer : Option IRenderer) : List (ERendererType × Option IRenderer) :=
  if table.any (fun aElem => aElem.1 == type) then table else table ++ [(type, pRenderer)]

/-- The values `type` takes in the loop of `RegisterRenderer`: a 32-bit counter that starts
at `eRenderer_Start` and is incremented until it equals `eRenderer_End`. -/
def rendererTypes (env : Env) : List ERendererType :=
  (List.range ((env.eRenderer_End % 2 ^ 32 + 2 ^ 32 - env.eRenderer_Start % 2 ^ 32) % 2 ^ 32)).map
    (fun i => (env.eRenderer_Start + i) % 2 ^ 32)

/-- The loop of `DrawingSystem::RegisterRenderer`, over the renderer types. -/
def registerLoop {K : Type} (env : Env) :
    List ERendererType → DrawingSystem K → Option (DrawingSystem K)
  | [], s => some s
  | type :: rest, s => do
    let g ← env.gpGlobal
    match g.GetRenderer type with
    | none => registerLoop env rest s
    | some pRenderer => do
      let s := { s with m_rendererTable := emplace s.m_rendererTable type (some pRenderer) }
      let s := emit (.AttachDevice pRenderer) s
      let _ ← s.m_pResourceTable
      let s := emit (.DefineResources pRenderer) s
      let s := emit (.SetupStages pRenderer) s
      registerLoop env rest s

/-- Stage 4: `DrawingSystem::RegisterRenderer`. -/
def RegisterRenderer {K : Type} (env : Env) (s : DrawingSystem K) :
    Option (Bool × DrawingSystem K) := do
  let s ← registerLoop env (rendererTypes env) s
  some (true, s)

/-- Swap-chain creation: `DrawingSystem::CreateSwapChain`; a null window is the failed
assertion. -/
def CreateSwapChain {K : Type} (env : Env) (s : DrawingSystem K) :
    Option (Option DrawingTarget × DrawingSystem K) := do
  let _ ← s.m_window
  let g ← env.gpGlobal
  let desc : DrawingTargetDesc :=
    { mHwnd := s.m_window
      mWidth := s.m_deviceSize.1
      mHeight := s.m_deviceSize.2
      mFormat := .eFormat_R8G8B8A8_UNORM
      mMultiSampleCount := g.msaa
      mMultiSampleQuality := if g.msaa = .eMSAA_Disable then 0 else 1 }
  let _ ← s.m_pDevice
  let s := emit (.CreateTarget desc) s
  let created := env.CreateTarget desc
  if !created.1 then some (none, s) else some (created.2, s)

/-- Depth-buffer creation: `DrawingSystem::CreateDepthBuffer`. -/
def CreateDepthBuffer {K : Type} (env : Env) (s : DrawingSystem K) :
    Option (Option DrawingDepthBuffer × DrawingSystem K) := do
  let g ← env.gpGlobal
  let desc : DrawingDepthBufferDesc :=
    { mWidth := s.m_deviceSize.1
      mHeight := s.m_deviceSize.2
      mFormat := .eFormat_D24S8
      mMultiSampleCount := g.msaa
      mMultiSampleQuality := if g.msaa = .eMSAA_Disable then 0 else 1 }
  let _ ← s.m_pDevice
  let s := emit (.CreateDepthBuffer desc) s
  let created := env.CreateDepthBuffer desc
  if !created.1 then some (none, s) else some (created.2, s)

/-- The loop of `DrawingSystem::CreateDataResources` over the registry. -/
def CreateDataResources {K : Type} :
    List (ERendererType × Option IRenderer) → DrawingSystem K → Option (DrawingSystem K)
  | [], s => some s
  | aElem :: rest, s =>
    match aElem.2 with
    | none => CreateDataResources rest s
    | some pRenderer => do
      let _ ← s.m_pResourceTable
      CreateDataResources rest (emit (.CreateDataResources pRenderer) s)

/-- The loop of `DrawingSystem::MapResources` over the registry. -/
def MapResources {K : Type} :
    List (ERendererType × Option IRenderer) → DrawingSystem K → Option (DrawingSystem K)
  | [], s => some s
  | aElem :: rest, s =>
    match aElem.2 with
    | none => MapResources rest s
    | some pRenderer => do
      let _ ← s.m_pResourceTable
      MapResources rest (emit (.MapResources pRenderer) s)

/-- Stage 5: `DrawingSystem::PostConfiguration`. -/
def PostConfiguration {K : Type} [Field K] (env : Env) (s : DrawingSystem K) :
    Option (Bool × DrawingSystem K) := do
  let (pSwapChain, s) ← CreateSwapChain env s
  let (pDepthBuffer, s) ← CreateDepthBuffer env s
  let ctx ← s.m_pContext
  let ctx := { ctx with swapChain := pSwapChain }
  let s := emit (.SetSwapChain pSwapChain) { s with m_pContext := some ctx }
  let ctx := { ctx with depthBuffer := pDepthBuffer }
  let s := emit (.SetDepthBuffer pDepthBuffer) { s with m_pContext := some ctx }
  let g ← env.gpGlobal
  let s := emit (.SetViewport 0 0 (g.width : K) (g.height : K)) s
  let _ ← s.m_pResourceTable
  let s := emit .UpdateTargets s
  let s := emit .BuildResources s
  if !env.BuildResources then some (false, s) else
  let _ ← s.m_pDevice
  let s := emit .Flush s
  let s ← CreateDataResources s.m_rendererTable s
  let s ← MapResources s.m_rendererTable s
  some (true, s)

/-- The five-stage pipeline: `DrawingSystem::EstablishConfiguration`. -/
def EstablishConfiguration {K : Type} [Field K] (env : Env) (s : DrawingSystem K) :
    Option (Bool × DrawingSystem K) := do
  let (ok, s) ← PreConfiguration env s
  if !ok then some (false, s) else
  let (ok, s) ← CreateDevice s
  if !ok then some (false, s) else
  let (ok, s) ← CreatePreResource s
  if !ok then some (false, s) else
  let (ok, s) ← RegisterRenderer env s
  if !ok then some (false, s) else
  let (ok, s) ← PostConfiguration env s
  if !ok then some (false, s) else
  some (true, s)

/-- Run the pipeline and drop its result: `DrawingSystem::Initialize`. -/
def Initialize {K : Type} [Field K] (env : Env) (s : DrawingSystem K) :
    Option (DrawingSystem K) := do
  let (_, s) ← EstablishConfiguration env s
  some s

/-! ## The frame loop as the specification words it

The calls of one frame, written from the description of the per-frame loop: per camera the
four frame calls, then, if the camera has a renderer, per mesh the transform update and the
six calls of the draw pass; at the end the present. -/

/-- The camera and transform components of a camera entity, if it has both. -/
def IEntity.asCamera {K : Type} (e : IEntity K) :
    Option (CameraComponent K × TransformComponent K) :=
  match e.camera, e.transform with
  | some c, some t => some (c, t)
  | _, _ => none

/-- The transform and mesh-filter components of a mesh entity, if it has both. -/
def IEntity.asMesh {K : Type} (e : IEntity K) :
    Option (TransformComponent K × MeshFilterComponent) :=
  match e.transform, e.meshFilter with
  | some t, some m => some (t, m)
  | _, _ => none

/-- The component pairs of the entities of the camera list. -/
def cameraViews {K : Type} (s : DrawingSystem K) :
    List (CameraComponent K × TransformComponent K) :=
  s.m_pCameraList.filterMap IEntity.asCamera

/-- The component pairs of the entities of the mesh list. -/
def meshViews {K : Type} (s : DrawingSystem K) :
    List (TransformComponent K × MeshFilterComponent) :=
  s.m_pMeshList.filterMap IEntity.asMesh

/-- The six calls of the draw-pass protocol for one mesh. -/
def specDrawPass {K : Type} (r : IRenderer) (mesh : IMesh) : List (Call K) :=
  [.BeginDrawPass r, .AttachMesh r mesh, .FlushData r, .Draw r, .ResetData r, .EndDrawPass r]

/-- The calls for one mesh: push its world matrix, then the draw pass. -/
def specMeshCalls {K : Type} [Field K] (ops : FloatOps K) (r : IRenderer)
    (m : TransformComponent K × MeshFilterComponent) : List (Call K) :=
  .UpdateTransform (UpdateWorldMatrix ops m.1) :: specDrawPass r m.2.mesh

/-- The four calls every camera gets: context and camera constants, then the two clears. -/
def specFrameCalls {K : Type} [Field K] (ops : FloatOps K) (g : Global) (ctx : DrawingContext)
    (c : CameraComponent K × TransformComponent K) : List (Call K) :=
  [.UpdateContext,
   .UpdateCamera (UpdateProjectionMatrix ops g.width g.height c.1) (UpdateViewMatrix ops c.2),
   .ClearTarget ctx.swapChain c.1.background,
   .ClearDepthBuffer ctx.depthBuffer 1 0 .eClear_Depth]

/-- The calls for one camera. -/
def specCameraCalls {K : Type} [Field K] (ops : FloatOps K) (g : Global) (ctx : DrawingContext)
    (meshes : List (TransformComponent K × MeshFilterComponent))
    (c : CameraComponent K × TransformComponent K) : List (Call K) :=
  specFrameCalls ops g ctx c ++
    match g.GetRenderer c.1.rendererType with
    | none => []
    | some r => meshes.flatMap (specMeshCalls ops r)

/-- The calls of one frame. -/
def specTick {K : Type} [Field K] (ops : FloatOps K) (g : Global) (ctx : DrawingContext)
    (cameras : List (CameraComponent K × TransformComponent K))
    (meshes : List (TransformComponent K × MeshFilterComponent)) : List (Call K) :=
  cameras.flatMap (specCameraCalls ops g ctx meshes) ++ [.Present ctx.swapChain 0]

/-- Whether a call is one of the six draw-pass calls of a renderer. -/
def Call.isDrawPass {K : Type} : Call K → Bool
  | .BeginDrawPass _ => true
  | .AttachMesh _ _ => true
  | .FlushData _ => true
  | .Draw _ => true
  | .ResetData _ => true
  | .EndDrawPass _ => true
  | _ => false

/-- Whether a call is a `Draw`. -/
def Call.isDraw {K : Type} : Call K → Bool
  | .Draw _ => true
  | _ => false

/-- Whether a call is a `Present`. -/
def Call.isPresent {K : Type} : Call K → Bool
  | .Present _ _ => true
  | _ => false

/-- Whether a call is an `UpdateTransform`. -/
def Call.isUpdateTransform {K : Type} : Call K → Bool
  | .UpdateTransform _ => true
  | _ => false

/-- Whether a call is one of those `PostConfiguration` issues after the resource table is
built: the device `Flush`, a `CreateDataResources` or a `MapResources`. -/
def Call.isPostBuild {K : Type} : Call K → Bool
  | .Flush => true
  | .CreateDataResources _ => true
  | .MapResources _ => true
  | _ => false

/-- Whether a call binds a target into the context or builds the resource table. -/
def Call.isBindOrBuild {K : Type} : Call K → Bool
  | .SetSwapChain _ => true
  | .SetDepthBuffer _ => true
  | .SetViewport _ _ _ _ => true
  | .UpdateTargets => true
  | .BuildResources => true
  | _ => false

/-- The non-null renderers of the registry, in iteration order. -/
def registeredRenderers {K : Type} (s : DrawingSystem K) : List IRenderer :=
  s.m_rendererTable.filterMap (fun aElem => aElem.2)

/-- The descriptor `CreateSwapChain` fills in. -/
def swapChainDesc {K : Type} (g : Global) (s : DrawingSystem K) : DrawingTargetDesc :=
  ⟨s.m_window, s.m_deviceSize.1, s.m_deviceSize.2, .eFormat_R8G8B8A8_UNORM, g.msaa,
    if g.msaa = .eMSAA_Disable then 0 else 1⟩

/-- The descriptor `CreateDepthBuffer` fills in. -/
def depthBufferDesc {K : Type} (g : Global) (s : DrawingSystem K) : DrawingDepthBufferDesc :=
  ⟨s.m_deviceSize.1, s.m_deviceSize.2, .eFormat_D24S8, g.msaa,
    if g.msaa = .eMSAA_Disable then 0 else 1⟩

/-- The pointer `CreateSwapChain` returns: null when the device reports failure. -/
def createdSwapChain {K : Type} (env : Env) (g : Global) (s : DrawingSystem K) :
    Option DrawingTarget :=
  if (env.CreateTarget (swapChainDesc g s)).1 then (env.CreateTarget (swapChainDesc g s)).2
  else none

/-- The pointer `CreateDepthBuffer` returns: null when the device reports failure. -/
def createdDepthBuffer {K : Type} (env : Env) (g : Global) (s : DrawingSystem K) :
    Option DrawingDepthBuffer :=
  if (env.CreateDepthBuffer (depthBufferDesc g s)).1 then
    (env.CreateDepthBuffer (depthBufferDesc g s)).2
  else none

/-- The calls `PostConfiguration` issues up to and including the build of the resource
table, from the members of the system and the answers of the device. -/
def postConfigurationPreamble {K : Type} [Field K] (env : Env) (g : Global)
    (s : DrawingSystem K) : List (Call K) :=
  [.CreateTarget (swapChainDesc g s),
   .CreateDepthBuffer (depthBufferDesc g s),
   .SetSwapChain (createdSwapChain env g s),
   .SetDepthBuffer (createdDepthBuffer env g s),
   .SetViewport 0 0 (g.width : K) (g.height : K),
   .UpdateTargets,
   .BuildResources]

/-- The calls `PostConfiguration` issues after a successful build: the flush, then
`CreateDataResources` on every registered renderer, then `MapResources` on every one. -/
def postConfigurationTail {K : Type} (s : DrawingSystem K) : List (Call K) :=
  Call.Flush :: ((registeredRenderers s).map Call.CreateDataResources ++
    (registeredRenderers s).map Call.MapResources)

/-- The registry after `RegisterRenderer` has gone through the renderer types `types`. -/
def registeredTable (g : Global) (types : List ERendererType)
    (table : List (ERendererType × Option IRenderer)) : List (ERendererType × Option IRenderer) :=
  types.foldl (fun tbl type =>
    match g.GetRenderer type with
    | none => tbl
    | some r => emplace tbl type (some r)) table

/-- The calls of `RegisterRenderer`: attach, define resources and set up stages, for every
renderer type of `types` that has a renderer in the catalog. -/
def registerCalls {K : Type} (g : Global) (types : List ERendererType) : List (Call K) :=
  (types.filterMap g.GetRenderer).flatMap
    (fun r => [.AttachDevice r, .DefineResources r, .SetupStages r])

/-- The system as the first four stages of `EstablishConfiguration` leave it, when they all
succeed. -/
def configuredSystem {K : Type} (env : Env) (g : Global) (s : DrawingSystem K) :
    DrawingSystem K :=
  { s with
    m_window := g.appHandle
    m_deviceSize := (g.width, g.height)
    m_pDevice := some s.m_deviceType
    m_pContext := some ⟨none, none⟩
    m_pEffectPool := some ()
    m_pResourceFactory := some ()
    m_pResourceTable := some ()
    m_rendererTable := registeredTable g (rendererTypes env) s.m_rendererTable
    log := s.log ++ ([.DeviceInitialize, .SetEffectPool] ++ registerCalls g (rendererTypes env)) }

/-! ## A concrete configuration -/

/-- A configuration of 1920 by 1080 on the first backend, with renderers registered for the
renderer types 1 and 2. -/
def demoGlobal : Global :=
  { width := 1920
    height := 1080
    appHandle := some 1
    msaa := .eMSAA_Disable
    deviceType := .eDevice_D3D11
    GetRenderer := fun type => if type = 1 then some 10 else if type = 2 then some 20 else none }

/-- An environment in which every creation and the table build succeed. -/
def demoEnv : Env :=
  { gpGlobal := some demoGlobal
    eRenderer_Start := 0
    eRenderer_End := 3
    CreateTarget := fun _ => (true, some 100)
    CreateDepthBuffer := fun _ => (true, some 200)
    BuildResources := true }

/-- The same environment with a device whose `CreateTarget` reports failure. -/
def failingTargetEnv : Env :=
  { demoEnv with CreateTarget := fun _ => (false, none) }

/-- The same environment with a device whose `CreateDepthBuffer` reports failure. -/
def failingDepthEnv : Env :=
  { demoEnv with CreateDepthBuffer := fun _ => (false, none) }

/-- The same environment with a resource table whose build fails. -/
def failingBuildEnv : Env :=
  { demoEnv with BuildResources := false }

/-- A transform at the origin with no rotation and unit scale. -/
def demoTransform {K : Type} [Field K] : TransformComponent K :=
  ⟨⟨0, 0, 0⟩, ⟨0, 0, 0⟩, ⟨1, 1, 1⟩⟩

/-- A camera of 90 degrees with clip planes 1/10 and 100, a black background and the given
renderer type. -/
def demoCamera {K : Type} [Field K] (type : ERendererType) : CameraComponent K :=
  ⟨90, 1 / 10, 100, ⟨0, 0, 0, 1⟩, type⟩

/-- A camera entity whose renderer type 1 has a renderer in `demoGlobal`. -/
def demoCameraEntity {K : Type} [Field K] : IEntity K :=
  ⟨1, some (demoCamera 1), some demoTransform, none⟩

/-- A camera entity whose renderer type 7 has no renderer in `demoGlobal`. -/
def demoOrphanCamera {K : Type} [Field K] : IEntity K :=
  ⟨2, some (demoCamera 7), some demoTransform, none⟩

/-- A mesh entity at the origin with the mesh handle 42. -/
def demoMeshEntity {K : Type} [Field K] : IEntity K :=
  ⟨3, none, some demoTransform, some ⟨42⟩⟩

/-- A configured system with the two cameras and the mesh flushed into its lists. -/
def demoSystem {K : Type} [Field K] : DrawingSystem K :=
  { m_window := some 1
    m_deviceSize := (1920, 1080)
    m_deviceType := .eDevice_D3D11
    m_pDevice := some .eDevice_D3D11
    m_pContext := some ⟨some 100, some 200⟩
    m_pEffectPool := some ()
    m_pResourceFactory := some ()
    m_pResourceTable := some ()
    m_rendererTable := [(1, some 10), (2, some 20)]
    m_pCameraList := [demoOrphanCamera, demoCameraEntity]
    m_pMeshList := [demoMeshEntity]
    log := [] }

/-- The world matrix in effect at each `Draw` of a log: scanning the calls in order, the
matrix of the last `UpdateTransform` seen (or `last` before any) is recorded at every
`Draw`. -/
def transformsAtDraw {K : Type} : Option (float4x4 K) → List (Call K) → List (Option (float4x4 K))
  | _, [] => []
  | _, .UpdateTransform w :: rest => transformsAtDraw (some w) rest
  | last, .Draw _ :: rest => last :: transformsAtDraw last rest
  | last, _ :: rest => transformsAtDraw last rest

/-- Every `Draw` of the log `l` closes the run: a call `prev` that ends the previous pass or
clears the depth buffer, the `UpdateTransform` with the world matrix of a mesh of `meshes`,
then `BeginDrawPass`, `AttachMesh` of that same mesh and `FlushData` of the drawing
renderer. -/
def DrawFramed {K : Type} [Field K] (ops : FloatOps K) (ctx : DrawingContext)
    (meshes : List (TransformComponent K × MeshFilterComponent)) (l : List (Call K)) : Prop :=
  ∀ a b r, l = a ++ Call.Draw r :: b →
    ∃ a0 prev m, m ∈ meshes ∧
      a = a0 ++ [prev, .UpdateTransform (UpdateWorldMatrix ops m.1), .BeginDrawPass r,
        .AttachMesh r m.2.mesh, .FlushData r] ∧
      (prev = .EndDrawPass r ∨ prev = .ClearDepthBuffer ctx.depthBuffer 1 0 .eClear_Depth)

/-- The precondition of `Tick`: the global object, device, context and resource table exist,
every entity of the camera list has a camera and a transform, and every entity of the mesh
list has a mesh filter and a transform. -/
def Ready {K : Type} (env : Env) (s : DrawingSystem K) : Prop :=
  env.gpGlobal.isSome ∧ s.m_pDevice.isSome ∧ s.m_pContext.isSome ∧ s.m_pResourceTable.isSome ∧
    (∀ e ∈ s.m_pCameraList, e.camera.isSome ∧ e.transform.isSome) ∧
    (∀ e ∈ s.m_pMeshList, e.meshFilter.isSome ∧ e.transform.isSome)

end Engine

namespace Engine

/-! ## The frame loop: what `Tick` issues -/

theorem emit_eq_emitAll {K : Type} (c : Call K) (s : DrawingSystem K) :
    emit c s = emitAll [c] s := rfl

theorem emitAll_emitAll {K : Type} (a b : List (Call K)) (s : DrawingSystem K) :
    emitAll b (emitAll a s) = emitAll (a ++ b) s := by
  simp [emitAll, List.append_assoc]

theorem emitAll_nil {K : Type} (s : DrawingSystem K) : emitAll [] s = s := by
  simp [emitAll]

/-- The inner loop issues, for every mesh, the transform update and the draw pass. -/
theorem drawMeshes_eq {K : Type} [Field K] (ops : FloatOps K) (r : IRenderer)
    (ms : List (IEntity K)) :
    ∀ s : DrawingSystem K, (∀ e ∈ ms, e.meshFilter.isSome ∧ e.transform.isSome) →
      s.m_pContext.isSome → s.m_pResourceTable.isSome →
      drawMeshes ops r ms s =
        some (emitAll ((ms.filterMap IEntity.asMesh).flatMap (specMeshCalls ops r)) s) := by
  induction ms with
  | nil => intro s _ _ _; simp [drawMeshes, emitAll_nil]
  | cons e rest ih =>
    intro s hwf hctx htab
    obtain ⟨hm, ht⟩ := hwf e (List.mem_cons_self _ _)
    obtain ⟨mf, hmf⟩ := Option.isSome_iff_exists.mp hm
    obtain ⟨tc, htc⟩ := Option.isSome_iff_exists.mp ht
    obtain ⟨ctx, hc⟩ := Option.isSome_iff_exists.mp hctx
    obtain ⟨tab, htb⟩ := Option.isSome_iff_exists.mp htab
    have hrest : ∀ e ∈ rest, e.meshFilter.isSome ∧ e.transform.isSome :=
      fun e he => hwf e (List.mem_cons_of_mem _ he)
    simp only [drawMeshes, hmf, htc, hc, htb, Option.bind_eq_bind, Option.some_bind,
      emit_eq_emitAll, emitAll_emitAll]
    rw [ih _ hrest (by simp [emitAll, hc]) (by simp [emitAll, htb])]
    simp [emitAll_emitAll, IEntity.asMesh, hmf, htc, specMeshCalls, specDrawPass]

theorem emitAll_m_pMeshList {K : Type} (cs : List (Call K)) (s : DrawingSystem K) :
    (emitAll cs s).m_pMeshList = s.m_pMeshList := rfl

theorem emitAll_m_pContext {K : Type} (cs : List (Call K)) (s : DrawingSystem K) :
    (emitAll cs s).m_pContext = s.m_pContext := rfl

theorem emitAll_m_pDevice {K : Type} (cs : List (Call K)) (s : DrawingSystem K) :
    (emitAll cs s).m_pDevice = s.m_pDevice := rfl

theorem emitAll_m_pResourceTable {K : Type} (cs : List (Call K)) (s : DrawingSystem K) :
    (emitAll cs s).m_pResourceTable = s.m_pResourceTable := rfl

/-- The outer loop issues, for every camera, the calls the specification lists. -/
theorem tickCameras_eq {K : Type} [Field K] (env : Env) (ops : FloatOps K) (g : Global)
    (ctx : DrawingContext) (hg : env.gpGlobal = some g) (cs : List (IEntity K)) :
    ∀ s : DrawingSystem K, (∀ e ∈ cs, e.camera.isSome ∧ e.transform.isSome) →
      (∀ e ∈ s.m_pMeshList, e.meshFilter.isSome ∧ e.transform.isSome) →
      s.m_pDevice.isSome → s.m_pContext = some ctx → s.m_pResourceTable.isSome →
      tickCameras env ops cs s =
        some (emitAll ((cs.filterMap IEntity.asCamera).flatMap
          (specCameraCalls ops g ctx (meshViews s))) s) := by
  induction cs with
  | nil => intro s _ _ _ _ _; simp [tickCameras, emitAll_nil]
  | cons e rest ih =>
    intro s hwf hms hdev hc htab
    obtain ⟨hcam, ht⟩ := hwf e (List.mem_cons_self _ _)
    obtain ⟨cc, hcc⟩ := Option.isSome_iff_exists.mp hcam
    obtain ⟨tc, htc⟩ := Option.isSome_iff_exists.mp ht
    obtain ⟨dev, hd⟩ := Option.isSome_iff_exists.mp hdev
    obtain ⟨tab, htb⟩ := Option.isSome_iff_exists.mp htab
    have hrest : ∀ e ∈ rest, e.camera.isSome ∧ e.transform.isSome :=
      fun e he => hwf e (List.mem_cons_of_mem _ he)
    have hview : (e :: rest).filterMap IEntity.asCamera =
        (cc, tc) :: rest.filterMap IEntity.asCamera := by
      simp [IEntity.asCamera, hcc, htc]
    simp only [tickCameras, hcc, htc, hg, hc, htb, hd, Option.bind_eq_bind, Option.some_bind,
      emit_eq_emitAll, emitAll_emitAll, emitAll_m_pDevice, emitAll_m_pMeshList, hview,
      List.flatMap_cons]
    cases hr : g.GetRenderer cc.rendererType with
    | none =>
      simp only []
      rw [ih (emitAll _ s) hrest hms (by simp [emitAll, hd]) (by simp [emitAll, hc])
        (by simp [emitAll, htb])]
      simp [emitAll_emitAll, specCameraCalls, specFrameCalls, hr, meshViews, emitAll]
    | some r =>
      simp only []
      rw [drawMeshes_eq ops r _ _ hms (by simp [emitAll, hc]) (by simp [emitAll, htb])]
      simp only [Option.some_bind, emitAll_emitAll]
      rw [ih (emitAll _ s) hrest hms (by simp [emitAll, hd]) (by simp [emitAll, hc])
        (by simp [emitAll, htb])]
      simp [emitAll_emitAll, specCameraCalls, specFrameCalls, hr, meshViews, emitAll]

/-- Under its precondition `Tick` returns, changes nothing but the log, and appends to the
log exactly the calls the specification lists. -/
theorem Tick_eq {K : Type} [Field K] (env : Env) (ops : FloatOps K) (dt : K)
    (s : DrawingSystem K) (g : Global) (ctx : DrawingContext) (hg : env.gpGlobal = some g)
    (hc : s.m_pContext = some ctx) (h : Ready env s) :
    Tick env ops dt s = some (emitAll (specTick ops g ctx (cameraViews s) (meshViews s)) s) := by
  obtain ⟨_, hdev, _, htab, hcs, hms⟩ := h
  obtain ⟨dev, hd⟩ := Option.isSome_iff_exists.mp hdev
  simp only [Tick, Option.bind_eq_bind]
  rw [tickCameras_eq env ops g ctx hg _ s hcs hms hdev hc htab]
  simp [emitAll_m_pDevice, emitAll_m_pContext, hd, hc, emit_eq_emitAll, emitAll_emitAll,
    specTick, cameraViews]

end Engine

namespace Engine

/-! ## `FlushEntity` -/

/-- `FlushEntity` keeps the invariant of the lists that `Tick` relies on. -/
theorem FlushEntity_lists_wf {K : Type} (e : IEntity K) (s : DrawingSystem K)
    (hc : ∀ x ∈ s.m_pCameraList, x.camera.isSome ∧ x.transform.isSome)
    (hm : ∀ x ∈ s.m_pMeshList, x.meshFilter.isSome ∧ x.transform.isSome) :
    (∀ x ∈ (FlushEntity e s).m_pCameraList, x.camera.isSome ∧ x.transform.isSome) ∧
    (∀ x ∈ (FlushEntity e s).m_pMeshList, x.meshFilter.isSome ∧ x.transform.isSome) := by
  unfold FlushEntity
  constructor
  · intro x hx
    by_cases h1 : (e.camera.isSome && e.transform.isSome) = true <;>
    by_cases h2 : (e.meshFilter.isSome && e.transform.isSome) = true <;>
    simp [h1, h2] at hx
    all_goals first
      | exact hc x hx
      | (rcases hx with hx | hx
         · exact hc x hx
         · subst hx; simpa using h1)
  · intro x hx
    by_cases h1 : (e.camera.isSome && e.transform.isSome) = true <;>
    by_cases h2 : (e.meshFilter.isSome && e.transform.isSome) = true <;>
    simp [h1, h2] at hx
    all_goals first
      | exact hm x hx
      | (rcases hx with hx | hx
         · exact hm x hx
         · subst hx; simpa using h2)

/-- C4: `FlushEntity e` appends `e` to the camera list exactly when `e` has a camera and a
transform, appends `e` to the mesh list exactly when `e` has a mesh filter and a transform,
and leaves each list unchanged otherwise; nothing is removed, reordered or de-duplicated, so
a second call with the same entity appends a second copy to every list it qualifies for. -/
theorem FlushEntity_appends {K : Type} (e : IEntity K) (s : DrawingSystem K) :
    (FlushEntity e s).m_pCameraList =
        s.m_pCameraList ++ (if e.camera.isSome ∧ e.transform.isSome then [e] else []) ∧
    (FlushEntity e s).m_pMeshList =
        s.m_pMeshList ++ (if e.meshFilter.isSome ∧ e.transform.isSome then [e] else []) ∧
    (FlushEntity e (FlushEntity e s)).m_pCameraList =
        s.m_pCameraList ++ (if e.camera.isSome ∧ e.transform.isSome then [e, e] else []) ∧
    (FlushEntity e (FlushEntity e s)).m_pMeshList =
        s.m_pMeshList ++ (if e.meshFilter.isSome ∧ e.transform.isSome then [e, e] else []) := by
  unfold FlushEntity
  by_cases h1 : (e.camera.isSome && e.transform.isSome) = true <;>
  by_cases h2 : (e.meshFilter.isSome && e.transform.isSome) = true <;>
  simp [h1, h2] <;> simp_all

end Engine

namespace Engine

/-! ## Cameras without a renderer -/

theorem filterMap_asCamera_split {K : Type} (pre post : List (IEntity K)) (cam : IEntity K)
    (cc : CameraComponent K) (tc : TransformComponent K)
    (hcc : cam.camera = some cc) (htc : cam.transform = some tc) :
    (pre ++ cam :: post).filterMap IEntity.asCamera =
      pre.filterMap IEntity.asCamera ++ (cc, tc) :: post.filterMap IEntity.asCamera := by
  simp [List.filterMap_append, IEntity.asCamera, hcc, htc]

/-- C1: a camera whose renderer-type has no renderer in the catalog gets the context and
camera constants, the clear of the swap chain to its background colour and the clear of the
depth buffer to depth 1 and stencil 0, and nothing else, whatever the mesh list holds; and
in a whole `Tick` these four calls stand between the calls of the cameras before it and the
calls of the cameras after it, which are followed by the `Present`. -/
theorem Tick_camera_without_renderer {K : Type} [Field K] (env : Env) (ops : FloatOps K)
    (dt : K) (s : DrawingSystem K) (g : Global) (ctx : DrawingContext) (cam : IEntity K)
    (cc : CameraComponent K) (tc : TransformComponent K)
    (hg : env.gpGlobal = some g) (hc : s.m_pContext = some ctx)
    (hdev : s.m_pDevice.isSome) (htab : s.m_pResourceTable.isSome)
    (hcc : cam.camera = some cc) (htc : cam.transform = some tc)
    (hr : g.GetRenderer cc.rendererType = none) :
    tickCameras env ops [cam] s = some (emitAll
      [.UpdateContext,
       .UpdateCamera (UpdateProjectionMatrix ops g.width g.height cc) (UpdateViewMatrix ops tc),
       .ClearTarget ctx.swapChain cc.background,
       .ClearDepthBuffer ctx.depthBuffer 1 0 .eClear_Depth] s) ∧
    ∀ pre post : List (IEntity K), s.m_pCameraList = pre ++ cam :: post → Ready env s →
      ∃ s1, Tick env ops dt s = some s1 ∧
        s1.log = s.log ++
          ((pre.filterMap IEntity.asCamera).flatMap (specCameraCalls ops g ctx (meshViews s)) ++
           [.UpdateContext,
            .UpdateCamera (UpdateProjectionMatrix ops g.width g.height cc)
              (UpdateViewMatrix ops tc),
            .ClearTarget ctx.swapChain cc.background,
            .ClearDepthBuffer ctx.depthBuffer 1 0 .eClear_Depth] ++
           (post.filterMap IEntity.asCamera).flatMap (specCameraCalls ops g ctx (meshViews s)) ++
           [.Present ctx.swapChain 0]) := by
  obtain ⟨dev, hd⟩ := Option.isSome_iff_exists.mp hdev
  obtain ⟨tab, htb⟩ := Option.isSome_iff_exists.mp htab
  refine ⟨?_, ?_⟩
  · simp [tickCameras, hcc, htc, hg, hc, htb, hd, hr, emit_eq_emitAll, emitAll_emitAll,
      emitAll_m_pDevice]
  · intro pre post hl hready
    refine ⟨_, Tick_eq env ops dt s g ctx hg hc hready, ?_⟩
    simp [emitAll, specTick, cameraViews, hl, filterMap_asCamera_split pre post cam cc tc hcc htc,
      specCameraCalls, specFrameCalls, hr]

end Engine

namespace Engine

/-! ## The draw-pass protocol -/

theorem filter_flatMap_eq {α β : Type} (p : β → Bool) (f : α → List β) (l : List α) :
    (l.flatMap f).filter p = l.flatMap (fun a => (f a).filter p) := by
  induction l with
  | nil => simp
  | cons a l ih => simp [List.flatMap_cons, List.filter_append, ih]

theorem length_flatMap_const {α β : Type} (f : α → List β) (n : Nat) (l : List α)
    (h : ∀ a ∈ l, (f a).length = n) : (l.flatMap f).length = l.length * n := by
  induction l with
  | nil => simp
  | cons a l ih =>
    simp only [List.flatMap_cons, List.length_append, List.length_cons]
    rw [ih (fun b hb => h b (List.mem_cons_of_mem _ hb)), h a (List.mem_cons_self _ _)]
    ring

theorem length_filterMap_asMesh {K : Type} (l : List (IEntity K))
    (h : ∀ e ∈ l, e.meshFilter.isSome ∧ e.transform.isSome) :
    (l.filterMap IEntity.asMesh).length = l.length := by
  induction l with
  | nil => simp
  | cons e l ih =>
    obtain ⟨hm, ht⟩ := h e (List.mem_cons_self _ _)
    obtain ⟨mf, hmf⟩ := Option.isSome_iff_exists.mp hm
    obtain ⟨tc, htc⟩ := Option.isSome_iff_exists.mp ht
    have : IEntity.asMesh e = some (tc, mf) := by simp [IEntity.asMesh, hmf, htc]
    simp [List.filterMap_cons, this, ih (fun x hx => h x (List.mem_cons_of_mem _ hx))]

theorem length_filterMap_asCamera {K : Type} (l : List (IEntity K))
    (h : ∀ e ∈ l, e.camera.isSome ∧ e.transform.isSome) :
    (l.filterMap IEntity.asCamera).length = l.length := by
  induction l with
  | nil => simp
  | cons e l ih =>
    obtain ⟨hm, ht⟩ := h e (List.mem_cons_self _ _)
    obtain ⟨cc, hcc⟩ := Option.isSome_iff_exists.mp hm
    obtain ⟨tc, htc⟩ := Option.isSome_iff_exists.mp ht
    have : IEntity.asCamera e = some (cc, tc) := by simp [IEntity.asCamera, hcc, htc]
    simp [List.filterMap_cons, this, ih (fun x hx => h x (List.mem_cons_of_mem _ hx))]

theorem length_meshViews {K : Type} (s : DrawingSystem K)
    (h : ∀ e ∈ s.m_pMeshList, e.meshFilter.isSome ∧ e.transform.isSome) :
    (meshViews s).length = s.m_pMeshList.length :=
  length_filterMap_asMesh _ h

theorem length_cameraViews {K : Type} (s : DrawingSystem K)
    (h : ∀ e ∈ s.m_pCameraList, e.camera.isSome ∧ e.transform.isSome) :
    (cameraViews s).length = s.m_pCameraList.length :=
  length_filterMap_asCamera _ h

theorem filter_isDrawPass_specCameraCalls {K : Type} [Field K] (ops : FloatOps K) (g : Global)
    (ctx : DrawingContext) (meshes : List (TransformComponent K × MeshFilterComponent))
    (c : CameraComponent K × TransformComponent K) :
    (specCameraCalls ops g ctx meshes c).filter Call.isDrawPass =
      match g.GetRenderer c.1.rendererType with
      | none => []
      | some r => meshes.flatMap (fun m => specDrawPass r m.2.mesh) := by
  cases hr : g.GetRenderer c.1.rendererType with
  | none => simp [specCameraCalls, specFrameCalls, hr, Call.isDrawPass]
  | some r =>
    simp only [specCameraCalls, hr, List.filter_append, filter_flatMap_eq]
    simp [specFrameCalls, specMeshCalls, specDrawPass, Call.isDrawPass]

theorem filter_isDrawPass_cameras {K : Type} [Field K] (ops : FloatOps K) (g : Global)
    (ctx : DrawingContext) (meshes : List (TransformComponent K × MeshFilterComponent))
    (cams : List (CameraComponent K × TransformComponent K)) :
    (cams.flatMap (specCameraCalls ops g ctx meshes)).filter Call.isDrawPass =
      (cams.filterMap (fun c => g.GetRenderer c.1.rendererType)).flatMap
        (fun r => meshes.flatMap (fun m => specDrawPass r m.2.mesh)) := by
  induction cams with
  | nil => simp
  | cons c cams ih =>
    rw [List.flatMap_cons, List.filter_append, ih, filter_isDrawPass_specCameraCalls]
    cases hr : g.GetRenderer c.1.rendererType with
    | none => simp [List.filterMap_cons, hr]
    | some r => simp [List.filterMap_cons, hr, List.flatMap_cons]

theorem filter_isDraw_cameras {K : Type} [Field K] (ops : FloatOps K) (g : Global)
    (ctx : DrawingContext) (meshes : List (TransformComponent K × MeshFilterComponent))
    (cams : List (CameraComponent K × TransformComponent K)) :
    ((cams.flatMap (specCameraCalls ops g ctx meshes)).filter Call.isDraw).length =
      (cams.filterMap (fun c => g.GetRenderer c.1.rendererType)).length * meshes.length := by
  induction cams with
  | nil => simp
  | cons c cams ih =>
    rw [List.flatMap_cons, List.filter_append, List.length_append, ih]
    cases hr : g.GetRenderer c.1.rendererType with
    | none => simp [List.filterMap_cons, hr, specCameraCalls, specFrameCalls, Call.isDraw]
    | some r =>
      have hm : ((meshes.flatMap (specMeshCalls ops r)).filter Call.isDraw).length =
          meshes.length := by
        rw [filter_flatMap_eq, length_flatMap_const _ 1 _ (fun m _ => by
          simp [specMeshCalls, specDrawPass, Call.isDraw])]
        simp
      simp only [specCameraCalls, hr, List.filter_append, List.length_append, hm,
        List.filterMap_cons, List.length_cons]
      simp [specFrameCalls, Call.isDraw]
      ring

theorem filter_isPresent_cameras {K : Type} [Field K] (ops : FloatOps K) (g : Global)
    (ctx : DrawingContext) (meshes : List (TransformComponent K × MeshFilterComponent))
    (cams : List (CameraComponent K × TransformComponent K)) :
    (cams.flatMap (specCameraCalls ops g ctx meshes)).filter Call.isPresent = [] := by
  rw [filter_flatMap_eq]
  simp only [List.flatMap_eq_nil_iff]
  intro c _
  cases hr : g.GetRenderer c.1.rendererType with
  | none => simp [specCameraCalls, specFrameCalls, hr, Call.isPresent]
  | some r =>
    simp only [specCameraCalls, hr, List.filter_append, filter_flatMap_eq]
    simp [specFrameCalls, specMeshCalls, specDrawPass, Call.isPresent]

/-- C2: the draw-pass calls `Tick` issues are, camera by camera (those with a renderer, in
list order) and mesh by mesh (in list order), the block begin, attach that mesh, flush,
draw, reset, end, each block contiguous in the log; there are as many `Draw` calls as
cameras with a renderer times meshes; the only `Present` is the last call; and for one
camera with a renderer and one mesh the frame is the four camera calls, the transform
update, the six protocol calls once each in order, and the `Present`. -/
theorem Tick_draw_pass_protocol {K : Type} [Field K] (env : Env) (ops : FloatOps K) (dt : K)
    (s : DrawingSystem K) (g : Global) (ctx : DrawingContext) (hg : env.gpGlobal = some g)
    (hc : s.m_pContext = some ctx) (h : Ready env s) :
    ∃ s1 tr, Tick env ops dt s = some s1 ∧ s1.log = s.log ++ tr ∧
      tr = (cameraViews s).flatMap (fun c => specFrameCalls ops g ctx c ++
          match g.GetRenderer c.1.rendererType with
          | none => []
          | some r => (meshViews s).flatMap (fun m =>
              .UpdateTransform (UpdateWorldMatrix ops m.1) :: specDrawPass r m.2.mesh)) ++
        [.Present ctx.swapChain 0] ∧
      tr.filter Call.isDrawPass =
        ((cameraViews s).filterMap (fun c => g.GetRenderer c.1.rendererType)).flatMap
          (fun r => (meshViews s).flatMap (fun m =>
            [.BeginDrawPass r, .AttachMesh r m.2.mesh, .FlushData r, .Draw r, .ResetData r,
             .EndDrawPass r])) ∧
      (tr.filter Call.isDraw).length =
        ((cameraViews s).filterMap (fun c => g.GetRenderer c.1.rendererType)).length *
          s.m_pMeshList.length ∧
      (cameraViews s).length = s.m_pCameraList.length ∧
      (meshViews s).length = s.m_pMeshList.length ∧
      tr.filter Call.isPresent = [.Present ctx.swapChain 0] ∧
      tr.getLast? = some (.Present ctx.swapChain 0) ∧
      (∀ cam m r, cameraViews s = [cam] → meshViews s = [m] →
        g.GetRenderer cam.1.rendererType = some r →
        tr = specFrameCalls ops g ctx cam ++
          [.UpdateTransform (UpdateWorldMatrix ops m.1), .BeginDrawPass r,
           .AttachMesh r m.2.mesh, .FlushData r, .Draw r, .ResetData r, .EndDrawPass r,
           .Present ctx.swapChain 0] ∧
        tr.filter Call.isDrawPass =
          [.BeginDrawPass r, .AttachMesh r m.2.mesh, .FlushData r, .Draw r, .ResetData r,
           .EndDrawPass r]) := by
  refine ⟨_, specTick ops g ctx (cameraViews s) (meshViews s),
    Tick_eq env ops dt s g ctx hg hc h, rfl, rfl, ?_, ?_, ?_, ?_, ?_, ?_, ?_⟩
  · simp only [specTick, List.filter_append, filter_isDrawPass_cameras]
    simp [Call.isDrawPass, specDrawPass]
  · simp only [specTick, List.filter_append, List.length_append, filter_isDraw_cameras,
      length_meshViews s h.2.2.2.2.2]
    simp [Call.isDraw]
  · exact length_cameraViews s h.2.2.2.2.1
  · exact length_meshViews s h.2.2.2.2.2
  · simp only [specTick, List.filter_append, filter_isPresent_cameras]
    simp [Call.isPresent]
  · simp [specTick]
  · intro cam m r hcam hm hr
    simp [specTick, hcam, hm, specCameraCalls, hr, specMeshCalls, specDrawPass, Call.isDrawPass,
      specFrameCalls]

end Engine

namespace Engine

/-! ## The transform pushed before each draw -/

theorem DrawFramed_of_no_draw {K : Type} [Field K] (ops : FloatOps K) (ctx : DrawingContext)
    (meshes : List (TransformComponent K × MeshFilterComponent)) (l : List (Call K))
    (h : ∀ c ∈ l, c.isDraw = false) : DrawFramed ops ctx meshes l := by
  intro a b r hl
  have : (Call.Draw r : Call K).isDraw = false := h _ (by rw [hl]; simp)
  simp [Call.isDraw] at this

theorem DrawFramed_append {K : Type} [Field K] (ops : FloatOps K) (ctx : DrawingContext)
    (meshes : List (TransformComponent K × MeshFilterComponent)) (l1 l2 : List (Call K))
    (h1 : DrawFramed ops ctx meshes l1) (h2 : DrawFramed ops ctx meshes l2) :
    DrawFramed ops ctx meshes (l1 ++ l2) := by
  intro a b r hl
  rcases List.append_eq_append_iff.mp hl with ⟨a1, ha, hl2⟩ | ⟨c1, hl1, hc⟩
  · obtain ⟨a0, prev, m, hm, ha0, hp⟩ := h2 a1 b r hl2
    exact ⟨l1 ++ a0, prev, m, hm, by rw [ha, ha0, List.append_assoc], hp⟩
  · cases c1 with
    | nil =>
      simp only [List.nil_append] at hc
      obtain ⟨a0, prev, m, _, ha0, _⟩ := h2 [] b r (by simpa using hc.symm)
      simp at ha0
    | cons x c1 =>
      simp only [List.cons_append, List.cons.injEq] at hc
      obtain ⟨hx, hb⟩ := hc
      subst hx
      exact h1 a c1 r hl1

theorem DrawFramed_flatMap {K : Type} [Field K] {α : Type} (ops : FloatOps K)
    (ctx : DrawingContext) (meshes : List (TransformComponent K × MeshFilterComponent))
    (f : α → List (Call K)) (l : List α) (h : ∀ x ∈ l, DrawFramed ops ctx meshes (f x)) :
    DrawFramed ops ctx meshes (l.flatMap f) := by
  induction l with
  | nil => exact DrawFramed_of_no_draw ops ctx meshes _ (by simp)
  | cons x l ih =>
    rw [List.flatMap_cons]
    exact DrawFramed_append ops ctx meshes _ _ (h x (List.mem_cons_self _ _))
      (ih (fun y hy => h y (List.mem_cons_of_mem _ hy)))

theorem DrawFramed_block {K : Type} [Field K] (ops : FloatOps K) (ctx : DrawingContext)
    (meshes : List (TransformComponent K × MeshFilterComponent)) (r : IRenderer)
    (m : TransformComponent K × MeshFilterComponent) (hm : m ∈ meshes) (prev : Call K)
    (hp : prev = .EndDrawPass r ∨ prev = .ClearDepthBuffer ctx.depthBuffer 1 0 .eClear_Depth) :
    DrawFramed ops ctx meshes
      [prev, .UpdateTransform (UpdateWorldMatrix ops m.1), .BeginDrawPass r,
        .AttachMesh r m.2.mesh, .FlushData r, .Draw r, .ResetData r] := by
  intro a b r1 hl
  have hprev : ∀ r2, prev ≠ Call.Draw r2 := by
    intro r2 h
    rcases hp with hp | hp <;> rw [hp] at h <;> cases h
  rcases a with _ | ⟨x0, a⟩
  · simp only [List.nil_append, List.cons.injEq] at hl
    exact absurd hl.1 (hprev r1)
  rcases a with _ | ⟨x1, a⟩
  · simp at hl
  rcases a with _ | ⟨x2, a⟩
  · simp at hl
  rcases a with _ | ⟨x3, a⟩
  · simp at hl
  rcases a with _ | ⟨x4, a⟩
  · simp at hl
  rcases a with _ | ⟨x5, a⟩
  · simp only [List.cons_append, List.nil_append, List.cons.injEq, Call.Draw.injEq] at hl
    obtain ⟨h0, h1, h2, h3, h4, h5, _⟩ := hl
    subst h0 h1 h2 h3 h4 h5
    exact ⟨[], _, m, hm, rfl, hp⟩
  rcases a with _ | ⟨x6, a⟩
  · simp at hl
  · simp at hl

theorem DrawFramed_meshes {K : Type} [Field K] (ops : FloatOps K) (ctx : DrawingContext)
    (meshes : List (TransformComponent K × MeshFilterComponent)) (r : IRenderer)
    (ms : List (TransformComponent K × MeshFilterComponent)) :
    (∀ m ∈ ms, m ∈ meshes) → ∀ prev : Call K,
      (prev = .EndDrawPass r ∨ prev = .ClearDepthBuffer ctx.depthBuffer 1 0 .eClear_Depth) →
      DrawFramed ops ctx meshes (prev :: ms.flatMap (specMeshCalls ops r)) := by
  induction ms with
  | nil =>
    intro _ prev hp
    apply DrawFramed_of_no_draw
    intro c hc
    simp only [List.flatMap_nil, List.mem_singleton] at hc
    rcases hp with hp | hp <;> rw [hc, hp] <;> rfl
  | cons m ms ih =>
    intro hsub prev hp
    have h1 := DrawFramed_block ops ctx meshes r m (hsub m (List.mem_cons_self _ _)) prev hp
    have h2 := ih (fun x hx => hsub x (List.mem_cons_of_mem _ hx)) (.EndDrawPass r) (Or.inl rfl)
    have := DrawFramed_append ops ctx meshes _ _ h1 h2
    simpa [List.flatMap_cons, specMeshCalls, specDrawPass] using this

theorem DrawFramed_specTick {K : Type} [Field K] (ops : FloatOps K) (g : Global)
    (ctx : DrawingContext) (meshes : List (TransformComponent K × MeshFilterComponent))
    (cams : List (CameraComponent K × TransformComponent K)) :
    DrawFramed ops ctx meshes (specTick ops g ctx cams meshes) := by
  unfold specTick
  apply DrawFramed_append
  · apply DrawFramed_flatMap
    intro c _
    unfold specCameraCalls
    cases hr : g.GetRenderer c.1.rendererType with
    | none =>
      exact DrawFramed_of_no_draw ops ctx meshes _ (by simp [specFrameCalls, Call.isDraw])
    | some r =>
      have h1 : DrawFramed ops ctx meshes
          [Call.UpdateContext, Call.UpdateCamera (UpdateProjectionMatrix ops g.width g.height c.1)
            (UpdateViewMatrix ops c.2), Call.ClearTarget ctx.swapChain c.1.background] :=
        DrawFramed_of_no_draw ops ctx meshes _ (by simp [Call.isDraw])
      have h2 := DrawFramed_meshes ops ctx meshes r meshes (fun _ h => h)
        (.ClearDepthBuffer ctx.depthBuffer 1 0 .eClear_Depth) (Or.inr rfl)
      have := DrawFramed_append ops ctx meshes _ _ h1 h2
      simpa [specFrameCalls] using this
  · exact DrawFramed_of_no_draw ops ctx meshes _ (by simp [Call.isDraw])

theorem transformsAtDraw_meshes {K : Type} [Field K] (ops : FloatOps K) (r : IRenderer)
    (tail : List (Call K)) (E : List (Option (float4x4 K)))
    (htail : ∀ last, transformsAtDraw last tail = E)
    (ms : List (TransformComponent K × MeshFilterComponent)) :
    ∀ last, transformsAtDraw last (ms.flatMap (specMeshCalls ops r) ++ tail) =
      ms.map (fun m => some (UpdateWorldMatrix ops m.1)) ++ E := by
  induction ms with
  | nil => intro last; simpa using htail last
  | cons m ms ih =>
    intro last
    rw [List.flatMap_cons, List.append_assoc]
    simp only [specMeshCalls, specDrawPass, List.cons_append, List.nil_append,
      transformsAtDraw, List.map_cons]
    exact congrArg _ (ih _)

theorem transformsAtDraw_specTick {K : Type} [Field K] (ops : FloatOps K) (g : Global)
    (ctx : DrawingContext) (meshes : List (TransformComponent K × MeshFilterComponent))
    (cams : List (CameraComponent K × TransformComponent K)) :
    ∀ last, transformsAtDraw last (specTick ops g ctx cams meshes) =
      (cams.filterMap (fun c => g.GetRenderer c.1.rendererType)).flatMap
        (fun _ => meshes.map (fun m => some (UpdateWorldMatrix ops m.1))) := by
  unfold specTick
  induction cams with
  | nil => intro last; simp [transformsAtDraw]
  | cons c cams ih =>
    intro last
    rw [List.flatMap_cons, List.append_assoc]
    cases hr : g.GetRenderer c.1.rendererType with
    | none =>
      simp only [specCameraCalls, specFrameCalls, hr, List.append_nil, List.cons_append,
        List.nil_append, transformsAtDraw, List.filterMap_cons]
      exact ih last
    | some r =>
      simp only [specCameraCalls, specFrameCalls, hr, List.filterMap_cons, List.flatMap_cons,
        List.append_assoc, List.cons_append, List.nil_append, transformsAtDraw]
      exact transformsAtDraw_meshes ops r _ _ ih meshes last

end Engine

namespace Engine

theorem mem_meshViews {K : Type} (s : DrawingSystem K)
    (m : TransformComponent K × MeshFilterComponent) (h : m ∈ meshViews s) :
    ∃ e ∈ s.m_pMeshList, e.transform = some m.1 ∧ e.meshFilter = some m.2 := by
  unfold meshViews at h
  obtain ⟨e, he, hm⟩ := List.mem_filterMap.mp h
  refine ⟨e, he, ?_⟩
  unfold IEntity.asMesh at hm
  cases ht : e.transform with
  | none => simp [ht] at hm
  | some t =>
    cases hf : e.meshFilter with
    | none => simp [ht, hf] at hm
    | some f =>
      simp only [ht, hf, Option.some.injEq] at hm
      subst hm
      exact ⟨rfl, rfl⟩

/-- C3: in the calls of one `Tick`, every `Draw` of a renderer directly follows the run
`UpdateTransform`, `BeginDrawPass`, `AttachMesh`, `FlushData` in which the matrix pushed is
`UpdateWorldMatrix` of the transform of the very entity whose geometry is attached, and the
call before that `UpdateTransform` is the `EndDrawPass` of the previous mesh or the depth
clear of the camera; and reading the log in order, the matrix last pushed when a `Draw` is
issued is, draw by draw, the world matrix of the mesh that draw belongs to. -/
theorem Tick_transform_before_draw {K : Type} [Field K] (env : Env) (ops : FloatOps K) (dt : K)
    (s : DrawingSystem K) (g : Global) (ctx : DrawingContext) (hg : env.gpGlobal = some g)
    (hc : s.m_pContext = some ctx) (h : Ready env s) :
    ∃ s1 tr, Tick env ops dt s = some s1 ∧ s1.log = s.log ++ tr ∧
      (∀ a b r, tr = a ++ Call.Draw r :: b →
        ∃ a0 prev, ∃ e ∈ s.m_pMeshList, ∃ t mf, e.transform = some t ∧ e.meshFilter = some mf ∧
          a = a0 ++ [prev, .UpdateTransform (UpdateWorldMatrix ops t), .BeginDrawPass r,
            .AttachMesh r mf.mesh, .FlushData r] ∧
          (prev = .EndDrawPass r ∨
            prev = .ClearDepthBuffer ctx.depthBuffer 1 0 .eClear_Depth)) ∧
      (∀ last, transformsAtDraw last tr =
        ((cameraViews s).filterMap (fun c => g.GetRenderer c.1.rendererType)).flatMap
          (fun _ => (meshViews s).map (fun m => some (UpdateWorldMatrix ops m.1)))) := by
  refine ⟨_, specTick ops g ctx (cameraViews s) (meshViews s),
    Tick_eq env ops dt s g ctx hg hc h, rfl, ?_, ?_⟩
  · intro a b r hl
    obtain ⟨a0, prev, m, hm, ha, hp⟩ :=
      DrawFramed_specTick ops g ctx (meshViews s) (cameraViews s) a b r hl
    obtain ⟨e, he, ht, hf⟩ := mem_meshViews s m hm
    exact ⟨a0, prev, e, he, m.1, m.2, ht, hf, ha, hp⟩
  · exact transformsAtDraw_specTick ops g ctx (meshViews s) (cameraViews s)

end Engine

namespace Engine

/-! ## The configuration pipeline -/

theorem CreateDataResources_eq {K : Type} (tbl : List (ERendererType × Option IRenderer)) :
    ∀ s : DrawingSystem K, s.m_pResourceTable.isSome →
      CreateDataResources tbl s =
        some (emitAll ((tbl.filterMap (fun aElem => aElem.2)).map Call.CreateDataResources) s) := by
  induction tbl with
  | nil => intro s _; simp [CreateDataResources, emitAll_nil]
  | cons x tbl ih =>
    intro s htab
    obtain ⟨tab, htb⟩ := Option.isSome_iff_exists.mp htab
    cases hx : x.2 with
    | none => simp [CreateDataResources, hx, ih s htab, List.filterMap_cons]
    | some r =>
      simp only [CreateDataResources, hx, htb, Option.bind_eq_bind, Option.some_bind,
        emit_eq_emitAll]
      rw [ih (emitAll _ s) (by simp [emitAll, htb])]
      simp [emitAll_emitAll, List.filterMap_cons, hx]

theorem MapResources_eq {K : Type} (tbl : List (ERendererType × Option IRenderer)) :
    ∀ s : DrawingSystem K, s.m_pResourceTable.isSome →
      MapResources tbl s =
        some (emitAll ((tbl.filterMap (fun aElem => aElem.2)).map Call.MapResources) s) := by
  induction tbl with
  | nil => intro s _; simp [MapResources, emitAll_nil]
  | cons x tbl ih =>
    intro s htab
    obtain ⟨tab, htb⟩ := Option.isSome_iff_exists.mp htab
    cases hx : x.2 with
    | none => simp [MapResources, hx, ih s htab, List.filterMap_cons]
    | some r =>
      simp only [MapResources, hx, htb, Option.bind_eq_bind, Option.some_bind,
        emit_eq_emitAll]
      rw [ih (emitAll _ s) (by simp [emitAll, htb])]
      simp [emitAll_emitAll, List.filterMap_cons, hx]

theorem CreateSwapChain_eq {K : Type} (env : Env) (s : DrawingSystem K) (g : Global)
    (hg : env.gpGlobal = some g) (hw : s.m_window.isSome) (hdev : s.m_pDevice.isSome) :
    CreateSwapChain env s =
      some (createdSwapChain env g s, emit (.CreateTarget (swapChainDesc g s)) s) := by
  obtain ⟨w, hw⟩ := Option.isSome_iff_exists.mp hw
  obtain ⟨dev, hd⟩ := Option.isSome_iff_exists.mp hdev
  simp only [CreateSwapChain, createdSwapChain, swapChainDesc, hg, hw, hd, Option.bind_eq_bind,
    Option.some_bind]
  cases (env.CreateTarget
    ⟨some w, s.m_deviceSize.1, s.m_deviceSize.2, .eFormat_R8G8B8A8_UNORM, g.msaa,
      if g.msaa = .eMSAA_Disable then 0 else 1⟩).1 <;> simp

theorem CreateDepthBuffer_eq {K : Type} (env : Env) (s : DrawingSystem K) (g : Global)
    (hg : env.gpGlobal = some g) (hdev : s.m_pDevice.isSome) :
    CreateDepthBuffer env s =
      some (createdDepthBuffer env g s, emit (.CreateDepthBuffer (depthBufferDesc g s)) s) := by
  obtain ⟨dev, hd⟩ := Option.isSome_iff_exists.mp hdev
  simp only [CreateDepthBuffer, createdDepthBuffer, depthBufferDesc, hg, hd, Option.bind_eq_bind,
    Option.some_bind]
  cases (env.CreateDepthBuffer
    ⟨s.m_deviceSize.1, s.m_deviceSize.2, .eFormat_D24S8, g.msaa,
      if g.msaa = .eMSAA_Disable then 0 else 1⟩).1 <;> simp

/-- What `PostConfiguration` does when it does not crash: the seven calls up to the build,
then, only if the build succeeded, the flush and the two loops over the registry; its result
is the result of the build. -/
theorem PostConfiguration_eq {K : Type} [Field K] (env : Env) (s : DrawingSystem K) (g : Global)
    (ctx : DrawingContext) (hg : env.gpGlobal = some g) (hw : s.m_window.isSome)
    (hdev : s.m_pDevice.isSome) (hc : s.m_pContext = some ctx)
    (htab : s.m_pResourceTable.isSome) :
    PostConfiguration env s = some (env.BuildResources,
      emitAll (postConfigurationPreamble env g s ++
          if env.BuildResources then postConfigurationTail s else [])
        { s with m_pContext := some ⟨createdSwapChain env g s, createdDepthBuffer env g s⟩ }) := by
  obtain ⟨dev, hd⟩ := Option.isSome_iff_exists.mp hdev
  obtain ⟨tab, htb⟩ := Option.isSome_iff_exists.mp htab
  have hD : CreateDepthBuffer env (emit (.CreateTarget (swapChainDesc g s)) s) =
      some (createdDepthBuffer env g s,
        emit (.CreateDepthBuffer (depthBufferDesc g s)) (emit (.CreateTarget (swapChainDesc g s)) s)) :=
    CreateDepthBuffer_eq env _ g hg (by simp [emit, hd])
  simp only [PostConfiguration, CreateSwapChain_eq env s g hg hw hdev, hD, Option.bind_eq_bind,
    Option.some_bind]
  simp only [emit_eq_emitAll, emitAll_m_pContext, hc, Option.some_bind, hg]
  cases hb : env.BuildResources with
  | false =>
    simp [emitAll, htb, postConfigurationPreamble]
  | true =>
    simp only [emitAll, htb, hd, Option.some_bind, Bool.not_true, Bool.false_eq_true,
      if_false, if_true]
    rw [CreateDataResources_eq _ _ (by simp [htb])]
    simp only [Option.some_bind]
    rw [MapResources_eq _ _ (by simp [emitAll, htb])]
    simp [emitAll, postConfigurationPreamble, postConfigurationTail, registeredRenderers]

theorem registerLoop_eq {K : Type} (env : Env) (g : Global) (hg : env.gpGlobal = some g)
    (types : List ERendererType) :
    ∀ s : DrawingSystem K, s.m_pResourceTable.isSome →
      registerLoop env types s = some (emitAll (registerCalls g types)
        { s with m_rendererTable := registeredTable g types s.m_rendererTable }) := by
  induction types with
  | nil => intro s _; simp [registerLoop, registerCalls, registeredTable, emitAll]
  | cons t types ih =>
    intro s htab
    obtain ⟨tab, htb⟩ := Option.isSome_iff_exists.mp htab
    cases hr : g.GetRenderer t with
    | none =>
      simp only [registerLoop, hg, hr, Option.bind_eq_bind, Option.some_bind]
      rw [ih s htab]
      simp [registerCalls, registeredTable, List.filterMap_cons, hr]
    | some r =>
      simp only [registerLoop, hg, hr, htb, Option.bind_eq_bind, Option.some_bind,
        emit_eq_emitAll, emitAll_emitAll, emitAll_m_pResourceTable]
      rw [ih (emitAll _ _) (by simp [emitAll, htb])]
      simp [registerCalls, registeredTable, List.filterMap_cons, hr, emitAll,
        List.flatMap_cons]

/-- With a configuration object, a window and a supported backend, the first four stages of
`EstablishConfiguration` succeed, and its result is that of `PostConfiguration` on the
system they leave. -/
theorem EstablishConfiguration_eq {K : Type} [Field K] (env : Env) (g : Global)
    (s : DrawingSystem K) (hg : env.gpGlobal = some g)
    (ht : s.m_deviceType = .eDevice_D3D11 ∨ s.m_deviceType = .eDevice_D3D12) :
    EstablishConfiguration env s = PostConfiguration env (configuredSystem env g s) := by
  have hreg := registerLoop_eq (K := K) env g hg (rendererTypes env)
  have hpost : ∀ r : Option (Bool × DrawingSystem K),
      (r.bind fun x => if (!x.1) = true then some (false, x.2) else some (true, x.2)) = r := by
    intro r
    rcases r with _ | ⟨ok, x⟩
    · rfl
    · cases ok <;> rfl
  rcases ht with ht | ht
  all_goals
    simp only [EstablishConfiguration, PreConfiguration, CreateDevice, CreatePreResource,
      RegisterRenderer, hg, ht, Option.bind_eq_bind, Option.some_bind, emit_eq_emitAll,
      Bool.not_true, Bool.false_eq_true, if_false]
    rw [hreg _ (by simp [emitAll])]
    simp only [Option.some_bind, Bool.not_true, Bool.false_eq_true, if_false]
    rw [hpost]
    congr 1
    simp [configuredSystem, emitAll, ht]

theorem postConfigurationPreamble_not_postBuild {K : Type} [Field K] (env : Env) (g : Global)
    (s : DrawingSystem K) : ∀ c ∈ postConfigurationPreamble env g s, c.isPostBuild = false := by
  intro c hc
  simp only [postConfigurationPreamble, List.mem_cons, List.mem_singleton, List.not_mem_nil,
    or_false] at hc
  rcases hc with h | h | h | h | h | h | h <;> rw [h] <;> rfl

theorem registerCalls_not_postBuild {K : Type} (g : Global) (types : List ERendererType) :
    ∀ c ∈ (registerCalls g types : List (Call K)), c.isPostBuild = false := by
  intro c hc
  simp only [registerCalls, List.mem_flatMap, List.mem_cons, List.mem_singleton,
    List.not_mem_nil, or_false] at hc
  obtain ⟨r, _, h | h | h⟩ := hc <;> rw [h] <;> rfl

/-- C6: the build of the resource table gates the rest of `PostConfiguration`. The result of
`PostConfiguration` is the result of `BuildResources`. When the build fails the calls issued
are the seven up to the build, none of them a `Flush`, `CreateDataResources` or
`MapResources`; when it succeeds they are followed by one `Flush`, then `CreateDataResources`
on every renderer of the registry, then `MapResources` on every renderer of the registry.
The same holds for `EstablishConfiguration`, whose earlier stages issue none of these
calls. -/
theorem PostConfiguration_build_gate {K : Type} [Field K] (env : Env) (s : DrawingSystem K)
    (g : Global) (ctx : DrawingContext) (hg : env.gpGlobal = some g) (hw : s.m_window.isSome)
    (hdev : s.m_pDevice.isSome) (hc : s.m_pContext = some ctx)
    (htab : s.m_pResourceTable.isSome) :
    (∃ s1 pre, PostConfiguration env s = some (env.BuildResources, s1) ∧
      s1.m_rendererTable = s.m_rendererTable ∧
      (∀ c ∈ pre, c.isPostBuild = false) ∧
      s1.log = s.log ++ pre ++
        (if env.BuildResources then
          [Call.Flush] ++ (registeredRenderers s).map Call.CreateDataResources ++
            (registeredRenderers s).map Call.MapResources
        else [])) ∧
    (∀ s0 : DrawingSystem K,
      s0.m_deviceType = .eDevice_D3D11 ∨ s0.m_deviceType = .eDevice_D3D12 →
      g.appHandle.isSome →
      ∃ s1 pre, EstablishConfiguration env s0 = some (env.BuildResources, s1) ∧
        (∀ c ∈ pre, c.isPostBuild = false) ∧
        s1.log = s0.log ++ pre ++
          (if env.BuildResources then
            [Call.Flush] ++ (registeredRenderers s1).map Call.CreateDataResources ++
              (registeredRenderers s1).map Call.MapResources
          else [])) := by
  constructor
  · refine ⟨_, postConfigurationPreamble env g s,
      PostConfiguration_eq env s g ctx hg hw hdev hc htab, rfl,
      postConfigurationPreamble_not_postBuild env g s, ?_⟩
    cases env.BuildResources <;> simp [emitAll, postConfigurationTail]
  · intro s0 ht hwin
    have hE := (EstablishConfiguration_eq env g s0 hg ht).trans
      (PostConfiguration_eq env (configuredSystem env g s0) g ⟨none, none⟩ hg
        (by simpa [configuredSystem] using hwin) (by simp [configuredSystem]) rfl
        (by simp [configuredSystem]))
    refine ⟨_, [.DeviceInitialize, .SetEffectPool] ++ registerCalls g (rendererTypes env) ++
        postConfigurationPreamble env g (configuredSystem env g s0), hE, ?_, ?_⟩
    · intro c hcm
      simp only [List.mem_append] at hcm
      rcases hcm with (h | h) | h
      · simp only [List.mem_cons, List.mem_singleton, List.not_mem_nil, or_false] at h
        rcases h with h | h <;> rw [h] <;> rfl
      · exact registerCalls_not_postBuild g _ c h
      · exact postConfigurationPreamble_not_postBuild env g _ c h
    · cases env.BuildResources <;>
        simp [emitAll, postConfigurationTail, configuredSystem, registeredRenderers]

/-- C5 (the code departs from the claim): with a device whose `CreateTarget` reports
failure, and likewise with one whose `CreateDepthBuffer` does, `EstablishConfiguration`
returns true; the null handle is bound into the context, the resource table is built, the
device is flushed and both renderers get `CreateDataResources` and `MapResources`. -/
theorem EstablishConfiguration_ignores_creation_failure :
    (EstablishConfiguration failingTargetEnv (DrawingSystem.new demoGlobal :
        DrawingSystem ℚ)).map (fun r => (r.1, r.2.m_pContext, r.2.log)) =
      some (true, some ⟨none, some 200⟩,
        [.DeviceInitialize, .SetEffectPool,
         .AttachDevice 10, .DefineResources 10, .SetupStages 10,
         .AttachDevice 20, .DefineResources 20, .SetupStages 20,
         .CreateTarget ⟨some 1, 1920, 1080, .eFormat_R8G8B8A8_UNORM, .eMSAA_Disable, 0⟩,
         .CreateDepthBuffer ⟨1920, 1080, .eFormat_D24S8, .eMSAA_Disable, 0⟩,
         .SetSwapChain none, .SetDepthBuffer (some 200), .SetViewport 0 0 1920 1080,
         .UpdateTargets, .BuildResources, .Flush,
         .CreateDataResources 10, .CreateDataResources 20,
         .MapResources 10, .MapResources 20]) ∧
    (EstablishConfiguration failingDepthEnv (DrawingSystem.new demoGlobal :
        DrawingSystem ℚ)).map (fun r => (r.1, r.2.m_pContext, r.2.log)) =
      some (true, some ⟨some 100, none⟩,
        [.DeviceInitialize, .SetEffectPool,
         .AttachDevice 10, .DefineResources 10, .SetupStages 10,
         .AttachDevice 20, .DefineResources 20, .SetupStages 20,
         .CreateTarget ⟨some 1, 1920, 1080, .eFormat_R8G8B8A8_UNORM, .eMSAA_Disable, 0⟩,
         .CreateDepthBuffer ⟨1920, 1080, .eFormat_D24S8, .eMSAA_Disable, 0⟩,
         .SetSwapChain (some 100), .SetDepthBuffer none, .SetViewport 0 0 1920 1080,
         .UpdateTargets, .BuildResources, .Flush,
         .CreateDataResources 10, .CreateDataResources 20,
         .MapResources 10, .MapResources 20]) :=
  ⟨rfl, rfl⟩

end Engine

namespace Engine

/-! ## The matrices, over the real numbers -/

/-- C7: over the reals, with `Mat::Mul` the matrix product, `UpdateWorldMatrix` is
`Scale(s) * RotateY(t) * Translate(p)`, that is the matrix with rows
`(s.x cos t, 0, s.x sin t, 0)`, `(0, s.y, 0, 0)`, `(-s.z sin t, 0, s.z cos t, 0)`,
`(p.x, p.y, p.z, 1)`; the X and Z rotation fields do not enter; for `t = 0` it is
`Scale(s) * Translate(p)`, and for `p = 0`, `s = (1, 1, 1)` it is `RotateY(t)`. -/
theorem UpdateWorldMatrix_eq (p sc : float3 ℝ) (rx θ rz : ℝ) :
    UpdateWorldMatrix ⟨Real.cos, Real.sin, Real.tan, Real.sqrt, Real.pi⟩ ⟨p, ⟨rx, θ, rz⟩, sc⟩ =
        specScale sc * specRotateY ⟨Real.cos, Real.sin, Real.tan, Real.sqrt, Real.pi⟩ θ *
          specTranslate p ∧
    UpdateWorldMatrix ⟨Real.cos, Real.sin, Real.tan, Real.sqrt, Real.pi⟩ ⟨p, ⟨rx, θ, rz⟩, sc⟩ =
        !![sc.x * Real.cos θ, 0, sc.x * Real.sin θ, 0;
           0, sc.y, 0, 0;
           -sc.z * Real.sin θ, 0, sc.z * Real.cos θ, 0;
           p.x, p.y, p.z, 1] ∧
    (∀ rx1 rz1 : ℝ,
      UpdateWorldMatrix ⟨Real.cos, Real.sin, Real.tan, Real.sqrt, Real.pi⟩ ⟨p, ⟨rx1, θ, rz1⟩, sc⟩ =
        UpdateWorldMatrix ⟨Real.cos, Real.sin, Real.tan, Real.sqrt, Real.pi⟩
          ⟨p, ⟨rx, θ, rz⟩, sc⟩) ∧
    UpdateWorldMatrix ⟨Real.cos, Real.sin, Real.tan, Real.sqrt, Real.pi⟩ ⟨p, ⟨rx, 0, rz⟩, sc⟩ =
        specScale sc * specTranslate p ∧
    UpdateWorldMatrix ⟨Real.cos, Real.sin, Real.tan, Real.sqrt, Real.pi⟩
        ⟨⟨0, 0, 0⟩, ⟨rx, θ, rz⟩, ⟨1, 1, 1⟩⟩ =
      specRotateY ⟨Real.cos, Real.sin, Real.tan, Real.sqrt, Real.pi⟩ θ := by
  have hrows : ∀ (p sc : float3 ℝ) (rx θ rz : ℝ),
      UpdateWorldMatrix ⟨Real.cos, Real.sin, Real.tan, Real.sqrt, Real.pi⟩
          ⟨p, ⟨rx, θ, rz⟩, sc⟩ =
        !![sc.x * Real.cos θ, 0, sc.x * Real.sin θ, 0;
           0, sc.y, 0, 0;
           -sc.z * Real.sin θ, 0, sc.z * Real.cos θ, 0;
           p.x, p.y, p.z, 1] := by
    intro p sc rx θ rz
    ext i j
    fin_cases i <;> fin_cases j <;>
      simp [UpdateWorldMatrix, Mat.Mul, Matrix.mul_apply, Fin.sum_univ_four]
  refine ⟨?_, hrows p sc rx θ rz, ?_, ?_, ?_⟩
  · simp only [UpdateWorldMatrix, Mat.Mul, specScale, specRotateY, specTranslate,
      Matrix.mul_assoc]
  · intro rx1 rz1
    rfl
  · rw [hrows]
    ext i j
    fin_cases i <;> fin_cases j <;>
      simp [specScale, specTranslate, Matrix.mul_apply, Fin.sum_univ_four]
  · rw [hrows]
    ext i j
    fin_cases i <;> fin_cases j <;> simp [specRotateY]

/-- C8: over the reals `UpdateProjectionMatrix` is the matrix with rows `(xScale, 0, 0, 0)`,
`(0, yScale, 0, 0)`, `(0, 0, zf/(zf-zn), 1)`, `(0, 0, -zn zf/(zf-zn), 0)` with
`yScale = 1/tan(fov pi/360)` and `xScale = yScale/(w/h)`; for `fov = 90` and `w/h = 16/9`
this gives `yScale = 1` and `xScale = 9/16`; and with `zn ≠ zf` the row vector `(x, y, z, 1)`,
`z ≠ 0`, has projected depth over projected w equal to 0 at `z = zn` and to 1 at `z = zf`. -/
theorem UpdateProjectionMatrix_eq (cam : CameraComponent ℝ) (w h : ℤ)
    (hzn : cam.clippingNear ≠ cam.clippingFar) (hh : h ≠ 0) :
    UpdateProjectionMatrix ⟨Real.cos, Real.sin, Real.tan, Real.sqrt, Real.pi⟩ w h cam =
        !![1 / Real.tan (cam.fov * Real.pi / 360) / ((w : ℝ) / (h : ℝ)), 0, 0, 0;
           0, 1 / Real.tan (cam.fov * Real.pi / 360), 0, 0;
           0, 0, cam.clippingFar / (cam.clippingFar - cam.clippingNear), 1;
           0, 0, -cam.clippingNear * cam.clippingFar / (cam.clippingFar - cam.clippingNear),
             0] ∧
    (cam.fov = 90 → (w : ℝ) / (h : ℝ) = 16 / 9 →
      UpdateProjectionMatrix ⟨Real.cos, Real.sin, Real.tan, Real.sqrt, Real.pi⟩ w h cam 1 1 = 1 ∧
      UpdateProjectionMatrix ⟨Real.cos, Real.sin, Real.tan, Real.sqrt, Real.pi⟩ w h cam 0 0 =
        9 / 16) ∧
    (∀ x y z : ℝ, z ≠ 0 →
      (z = cam.clippingNear →
        Matrix.vecMul ![x, y, z, 1]
            (UpdateProjectionMatrix ⟨Real.cos, Real.sin, Real.tan, Real.sqrt, Real.pi⟩ w h cam) 2 /
          Matrix.vecMul ![x, y, z, 1]
            (UpdateProjectionMatrix ⟨Real.cos, Real.sin, Real.tan, Real.sqrt, Real.pi⟩ w h cam) 3
          = 0) ∧
      (z = cam.clippingFar →
        Matrix.vecMul ![x, y, z, 1]
            (UpdateProjectionMatrix ⟨Real.cos, Real.sin, Real.tan, Real.sqrt, Real.pi⟩ w h cam) 2 /
          Matrix.vecMul ![x, y, z, 1]
            (UpdateProjectionMatrix ⟨Real.cos, Real.sin, Real.tan, Real.sqrt, Real.pi⟩ w h cam) 3
          = 1)) := by
  have harg : Real.pi / 180 * cam.fov / 2 = cam.fov * Real.pi / 360 := by ring
  have hw0 : (h : ℝ) ≠ 0 := by exact_mod_cast hh
  have hM : UpdateProjectionMatrix ⟨Real.cos, Real.sin, Real.tan, Real.sqrt, Real.pi⟩ w h cam =
      !![1 / Real.tan (cam.fov * Real.pi / 360) / ((w : ℝ) / (h : ℝ)), 0, 0, 0;
         0, 1 / Real.tan (cam.fov * Real.pi / 360), 0, 0;
         0, 0, cam.clippingFar / (cam.clippingFar - cam.clippingNear), 1;
         0, 0, -cam.clippingNear * cam.clippingFar / (cam.clippingFar - cam.clippingNear),
           0] := by
    simp only [UpdateProjectionMatrix, harg]
  refine ⟨hM, ?_, ?_⟩
  · intro hfov hasp
    have h45 : Real.tan (cam.fov * Real.pi / 360) = 1 := by
      rw [hfov, show (90 : ℝ) * Real.pi / 360 = Real.pi / 4 by ring, Real.tan_pi_div_four]
    rw [hM, h45, hasp]
    constructor
    · simp
    · simp
  · intro x y z hz
    have hd : cam.clippingFar - cam.clippingNear ≠ 0 := sub_ne_zero.mpr (Ne.symm hzn)
    rw [hM]
    have e2 : Matrix.vecMul ![x, y, z, 1]
        !![1 / Real.tan (cam.fov * Real.pi / 360) / ((w : ℝ) / (h : ℝ)), 0, 0, 0;
           0, 1 / Real.tan (cam.fov * Real.pi / 360), 0, 0;
           0, 0, cam.clippingFar / (cam.clippingFar - cam.clippingNear), 1;
           0, 0, -cam.clippingNear * cam.clippingFar / (cam.clippingFar - cam.clippingNear),
             0] 2 =
        z * (cam.clippingFar / (cam.clippingFar - cam.clippingNear)) +
          -cam.clippingNear * cam.clippingFar / (cam.clippingFar - cam.clippingNear) := by
      simp [Matrix.vecMul, Matrix.dotProduct, Fin.sum_univ_four]
    have e3 : Matrix.vecMul ![x, y, z, 1]
        !![1 / Real.tan (cam.fov * Real.pi / 360) / ((w : ℝ) / (h : ℝ)), 0, 0, 0;
           0, 1 / Real.tan (cam.fov * Real.pi / 360), 0, 0;
           0, 0, cam.clippingFar / (cam.clippingFar - cam.clippingNear), 1;
           0, 0, -cam.clippingNear * cam.clippingFar / (cam.clippingFar - cam.clippingNear),
             0] 3 = z := by
      simp [Matrix.vecMul, Matrix.dotProduct, Fin.sum_univ_four]
    rw [e2, e3]
    constructor
    · intro hzeq
      rw [hzeq]
      have : cam.clippingNear * (cam.clippingFar / (cam.clippingFar - cam.clippingNear)) +
          -cam.clippingNear * cam.clippingFar / (cam.clippingFar - cam.clippingNear) = 0 := by
        ring
      rw [this, zero_div]
    · intro hzeq
      rw [hzeq] at hz ⊢
      have : cam.clippingFar * (cam.clippingFar / (cam.clippingFar - cam.clippingNear)) +
          -cam.clippingNear * cam.clippingFar / (cam.clippingFar - cam.clippingNear) =
          cam.clippingFar := by
        field_simp
        ring
      rw [this, div_self hz]

end Engine

namespace MiniRaytracing

/-- C10: for `ior ≥ 0` and `0 ≤ cosine ≤ 1`, with `r0 = ((1 - ior)/(1 + ior))^2`, the
reflectance is `r0 + (1 - r0)(1 - cosine)^5` and lies between `r0 ≥ 0` and 1; it is `r0` at
cosine 1 and 1 at cosine 0, and it does not increase when the cosine grows within `[0, 1]`
(exact arithmetic in any ordered field, the rationals and the reals among them). -/
theorem reflectance_bounds {K : Type} [LinearOrderedField K] (cosine ior : K) (hior : 0 ≤ ior)
    (h0 : 0 ≤ cosine) (h1 : cosine ≤ 1) :
    reflectance cosine ior =
        ((1 - ior) / (1 + ior)) ^ 2 + (1 - ((1 - ior) / (1 + ior)) ^ 2) * (1 - cosine) ^ 5 ∧
    0 ≤ ((1 - ior) / (1 + ior)) ^ 2 ∧
    ((1 - ior) / (1 + ior)) ^ 2 ≤ reflectance cosine ior ∧
    reflectance cosine ior ≤ 1 ∧
    reflectance 1 ior = ((1 - ior) / (1 + ior)) ^ 2 ∧
    reflectance 0 ior = 1 ∧
    (∀ c2 : K, cosine ≤ c2 → c2 ≤ 1 → reflectance c2 ior ≤ reflectance cosine ior) := by
  have hpos : 0 < 1 + ior := by linarith
  have hr0 : 0 ≤ ((1 - ior) / (1 + ior)) ^ 2 := sq_nonneg _
  have habs : |(1 - ior) / (1 + ior)| ≤ 1 := by
    rw [abs_div, abs_of_pos hpos, div_le_one hpos, abs_le]
    constructor <;> linarith
  have hr1 : ((1 - ior) / (1 + ior)) ^ 2 ≤ 1 := by
    have := (sq_le_one_iff_abs_le_one _).mpr habs
    exact this
  have hdef : ∀ c : K, reflectance c ior =
      ((1 - ior) / (1 + ior)) ^ 2 + (1 - ((1 - ior) / (1 + ior)) ^ 2) * (1 - c) ^ 5 := by
    intro c
    simp only [reflectance]
    ring
  have hc0 : 0 ≤ 1 - cosine := by linarith
  have hc1 : 1 - cosine ≤ 1 := by linarith
  have hp0 : 0 ≤ (1 - cosine) ^ 5 := pow_nonneg hc0 5
  have hp1 : (1 - cosine) ^ 5 ≤ 1 := pow_le_one₀ hc0 hc1
  have hk : 0 ≤ 1 - ((1 - ior) / (1 + ior)) ^ 2 := by linarith
  refine ⟨hdef cosine, hr0, ?_, ?_, ?_, ?_, ?_⟩
  · rw [hdef]
    nlinarith [mul_nonneg hk hp0]
  · rw [hdef]
    nlinarith [mul_le_mul_of_nonneg_left hp1 hk]
  · rw [hdef]; ring
  · rw [hdef]; ring
  · intro c2 h12 h2
    rw [hdef, hdef]
    have hmono : (1 - c2) ^ 5 ≤ (1 - cosine) ^ 5 :=
      pow_le_pow_left₀ (by linarith) (by linarith) 5
    nlinarith [mul_le_mul_of_nonneg_left hmono hk]

end MiniRaytracing

namespace Engine

/-! ## The view matrix -/

theorem Dot_comm (a b : float3 ℝ) : Vec.Dot a b = Vec.Dot b a := by
  simp only [Vec.Dot]; ring

theorem Dot_Cross_left (a b : float3 ℝ) : Vec.Dot (Vec.Cross a b) a = 0 := by
  simp only [Vec.Dot, Vec.Cross]; ring

theorem Dot_Cross_right (a b : float3 ℝ) : Vec.Dot (Vec.Cross a b) b = 0 := by
  simp only [Vec.Dot, Vec.Cross]; ring

theorem Dot_Cross_Cross (a b : float3 ℝ) :
    Vec.Dot (Vec.Cross a b) (Vec.Cross a b) =
      Vec.Dot a a * Vec.Dot b b - Vec.Dot a b ^ 2 := by
  simp only [Vec.Dot, Vec.Cross]; ring

theorem Dot_Normalize_left (ops : FloatOps ℝ) (a b : float3 ℝ) :
    Vec.Dot (Vec.Normalize ops a) b = Vec.Dot a b / ops.sqrtf (Vec.Dot a a) := by
  simp only [Vec.Dot, Vec.Normalize]; ring

theorem Dot_Normalize_self (ops : FloatOps ℝ) (hs : ops.sqrtf = Real.sqrt) (a : float3 ℝ)
    (ha : 0 < Vec.Dot a a) : Vec.Dot (Vec.Normalize ops a) (Vec.Normalize ops a) = 1 := by
  have hpos : 0 < Real.sqrt (Vec.Dot a a) := Real.sqrt_pos.mpr ha
  have hsq : Real.sqrt (Vec.Dot a a) * Real.sqrt (Vec.Dot a a) = Vec.Dot a a :=
    Real.mul_self_sqrt ha.le
  have hexp : Vec.Dot (Vec.Normalize ops a) (Vec.Normalize ops a) =
      Vec.Dot a a / (Real.sqrt (Vec.Dot a a) * Real.sqrt (Vec.Dot a a)) := by
    simp only [Vec.Dot, Vec.Normalize, hs]
    ring
  rw [hexp, hsq, div_self ha.ne']

/-- The basis of the look-at construction for a viewing direction `d` that is not vertical:
three orthogonal unit vectors, the third along `d`. -/
theorem lookAt_basis (ops : FloatOps ℝ) (hs : ops.sqrtf = Real.sqrt) (d : float3 ℝ)
    (hd : d.x ≠ 0 ∨ d.z ≠ 0) :
    Vec.Dot (Vec.Normalize ops (Vec.Cross ⟨0, 1, 0⟩ (Vec.Normalize ops d)))
        (Vec.Normalize ops (Vec.Cross ⟨0, 1, 0⟩ (Vec.Normalize ops d))) = 1 ∧
    Vec.Dot (Vec.Normalize ops d) (Vec.Normalize ops d) = 1 ∧
    Vec.Dot (Vec.Normalize ops d)
        (Vec.Normalize ops (Vec.Cross ⟨0, 1, 0⟩ (Vec.Normalize ops d))) = 0 ∧
    Vec.Dot d (Vec.Normalize ops d) = Real.sqrt (Vec.Dot d d) ∧
    Vec.Dot d (Vec.Normalize ops (Vec.Cross ⟨0, 1, 0⟩ (Vec.Normalize ops d))) = 0 ∧
    Vec.Dot d (Vec.Cross (Vec.Normalize ops d)
      (Vec.Normalize ops (Vec.Cross ⟨0, 1, 0⟩ (Vec.Normalize ops d)))) = 0 := by
  have hn : 0 < Vec.Dot d d := by
    simp only [Vec.Dot]
    rcases hd with h | h
    · have := mul_self_pos.mpr h
      nlinarith [mul_self_nonneg d.y, mul_self_nonneg d.z]
    · have := mul_self_pos.mpr h
      nlinarith [mul_self_nonneg d.y, mul_self_nonneg d.x]
  have hpos : 0 < Real.sqrt (Vec.Dot d d) := Real.sqrt_pos.mpr hn
  have hsq : Real.sqrt (Vec.Dot d d) * Real.sqrt (Vec.Dot d d) = Vec.Dot d d :=
    Real.mul_self_sqrt hn.le
  have hz := Dot_Normalize_self ops hs d hn
  have hzx : (Vec.Normalize ops d).x = d.x / Real.sqrt (Vec.Dot d d) := by
    simp [Vec.Normalize, hs]
  have hzz : (Vec.Normalize ops d).z = d.z / Real.sqrt (Vec.Dot d d) := by
    simp [Vec.Normalize, hs]
  have hc : 0 < Vec.Dot (Vec.Cross ⟨0, 1, 0⟩ (Vec.Normalize ops d))
      (Vec.Cross ⟨0, 1, 0⟩ (Vec.Normalize ops d)) := by
    have hcc : Vec.Dot (Vec.Cross ⟨0, 1, 0⟩ (Vec.Normalize ops d))
        (Vec.Cross ⟨0, 1, 0⟩ (Vec.Normalize ops d)) =
        (Vec.Normalize ops d).z * (Vec.Normalize ops d).z +
          (Vec.Normalize ops d).x * (Vec.Normalize ops d).x := by
      simp only [Vec.Dot, Vec.Cross]; ring
    rw [hcc, hzx, hzz]
    rcases hd with h | h
    · have h1 : d.x / Real.sqrt (Vec.Dot d d) ≠ 0 := div_ne_zero h hpos.ne'
      have := mul_self_pos.mpr h1
      nlinarith [mul_self_nonneg (d.z / Real.sqrt (Vec.Dot d d))]
    · have h1 : d.z / Real.sqrt (Vec.Dot d d) ≠ 0 := div_ne_zero h hpos.ne'
      have := mul_self_pos.mpr h1
      nlinarith [mul_self_nonneg (d.x / Real.sqrt (Vec.Dot d d))]
  have hx := Dot_Normalize_self ops hs _ hc
  have hzc : Vec.Dot (Vec.Normalize ops d)
      (Vec.Normalize ops (Vec.Cross ⟨0, 1, 0⟩ (Vec.Normalize ops d))) = 0 := by
    rw [Dot_comm, Dot_Normalize_left, Dot_Cross_right, zero_div]
  have hdz : Vec.Dot d (Vec.Normalize ops d) = Real.sqrt (Vec.Dot d d) := by
    rw [Dot_comm, Dot_Normalize_left, hs]
    rw [div_eq_iff hpos.ne', hsq]
  have hdecomp : ∀ v : float3 ℝ,
      Vec.Dot d v = Real.sqrt (Vec.Dot d d) * Vec.Dot (Vec.Normalize ops d) v := by
    intro v
    rw [Dot_Normalize_left, hs]
    field_simp
  refine ⟨hx, hz, hzc, hdz, ?_, ?_⟩
  · rw [hdecomp, hzc, mul_zero]
  · rw [hdecomp, Dot_comm (Vec.Normalize ops d) (Vec.Cross _ _), Dot_Cross_left, mul_zero]

theorem Dot_neg_left (a b : float3 ℝ) : Vec.Dot a.neg b = -Vec.Dot a b := by
  simp only [Vec.Dot, float3.neg]; ring

theorem lookAt_maps_eye (x y z eye : float3 ℝ) :
    Matrix.vecMul ![eye.x, eye.y, eye.z, 1]
      !![x.x, y.x, z.x, 0;
         x.y, y.y, z.y, 0;
         x.z, y.z, z.z, 0;
         -Vec.Dot x eye, -Vec.Dot y eye, -Vec.Dot z eye, 1] = ![0, 0, 0, 1] := by
  ext j
  fin_cases j <;>
    simp [Matrix.vecMul, Matrix.dotProduct, Fin.sum_univ_four, Vec.Dot] <;> ring

theorem lookAt_maps_target (x y z eye : float3 ℝ) :
    Matrix.vecMul ![0, 0, 1, 1]
      !![x.x, y.x, z.x, 0;
         x.y, y.y, z.y, 0;
         x.z, y.z, z.z, 0;
         -Vec.Dot x eye, -Vec.Dot y eye, -Vec.Dot z eye, 1] =
      ![Vec.Dot (float3.sub ⟨0, 0, 1⟩ eye) x, Vec.Dot (float3.sub ⟨0, 0, 1⟩ eye) y,
        Vec.Dot (float3.sub ⟨0, 0, 1⟩ eye) z, 1] := by
  ext j
  fin_cases j <;>
    simp [Matrix.vecMul, Matrix.dotProduct, Fin.sum_univ_four, Vec.Dot, float3.sub] <;> ring

theorem UpdateViewMatrix_rows (ops : FloatOps ℝ) (t : TransformComponent ℝ) (x y z : float3 ℝ)
    (hz : z = Vec.Normalize ops (float3.sub ⟨0, 0, 1⟩ t.position))
    (hx : x = Vec.Normalize ops (Vec.Cross ⟨0, 1, 0⟩ z)) (hy : y = Vec.Cross z x) :
    UpdateViewMatrix ops t =
      !![x.x, y.x, z.x, 0;
         x.y, y.y, z.y, 0;
         x.z, y.z, z.z, 0;
         -Vec.Dot x t.position, -Vec.Dot y t.position, -Vec.Dot z t.position, 1] := by
  subst hy hx hz
  simp only [UpdateViewMatrix, Dot_neg_left]

/-- C9: for an eye off the vertical line through the target `(0, 0, 1)`, over the reals,
`UpdateViewMatrix` builds `z = normalize(target - eye)`, `x = normalize(up × z)`,
`y = z × x`, three mutually orthogonal unit vectors, puts them in the columns of the upper
left block and `(-x·eye, -y·eye, -z·eye, 1)` in the last row; the row vector `(eye, 1)` goes
to `(0, 0, 0, 1)` and the target to `(0, 0, |target - eye|, 1)`; the rotation and scale
fields do not enter; and for the eye at the origin the matrix is the identity. -/
theorem UpdateViewMatrix_lookAt (t : TransformComponent ℝ)
    (h : ¬ (t.position.x = 0 ∧ t.position.z = 1)) :
    ∃ x y z : float3 ℝ,
      z = Vec.Normalize ⟨Real.cos, Real.sin, Real.tan, Real.sqrt, Real.pi⟩
        (float3.sub ⟨0, 0, 1⟩ t.position) ∧
      x = Vec.Normalize ⟨Real.cos, Real.sin, Real.tan, Real.sqrt, Real.pi⟩
        (Vec.Cross ⟨0, 1, 0⟩ z) ∧
      y = Vec.Cross z x ∧
      Vec.Dot x x = 1 ∧ Vec.Dot y y = 1 ∧ Vec.Dot z z = 1 ∧
      Vec.Dot x y = 0 ∧ Vec.Dot y z = 0 ∧ Vec.Dot z x = 0 ∧
      UpdateViewMatrix ⟨Real.cos, Real.sin, Real.tan, Real.sqrt, Real.pi⟩ t =
        !![x.x, y.x, z.x, 0;
           x.y, y.y, z.y, 0;
           x.z, y.z, z.z, 0;
           -Vec.Dot x t.position, -Vec.Dot y t.position, -Vec.Dot z t.position, 1] ∧
      Matrix.vecMul ![t.position.x, t.position.y, t.position.z, 1]
          (UpdateViewMatrix ⟨Real.cos, Real.sin, Real.tan, Real.sqrt, Real.pi⟩ t) =
        ![0, 0, 0, 1] ∧
      Matrix.vecMul ![0, 0, 1, 1]
          (UpdateViewMatrix ⟨Real.cos, Real.sin, Real.tan, Real.sqrt, Real.pi⟩ t) =
        ![0, 0, Real.sqrt (Vec.Dot (float3.sub ⟨0, 0, 1⟩ t.position)
            (float3.sub ⟨0, 0, 1⟩ t.position)), 1] ∧
      (∀ r sc : float3 ℝ,
        UpdateViewMatrix ⟨Real.cos, Real.sin, Real.tan, Real.sqrt, Real.pi⟩
            ⟨t.position, r, sc⟩ =
          UpdateViewMatrix ⟨Real.cos, Real.sin, Real.tan, Real.sqrt, Real.pi⟩ t) ∧
      (t.position = ⟨0, 0, 0⟩ →
        UpdateViewMatrix ⟨Real.cos, Real.sin, Real.tan, Real.sqrt, Real.pi⟩ t = 1) := by
  have hd : (float3.sub ⟨0, 0, 1⟩ t.position).x ≠ 0 ∨ (float3.sub ⟨0, 0, 1⟩ t.position).z ≠ 0 := by
    by_contra hcon
    push_neg at hcon
    apply h
    simp only [float3.sub] at hcon
    constructor
    · linarith [hcon.1]
    · linarith [hcon.2]
  obtain ⟨hx, hz, hzx, hdz, hdx, hdy⟩ :=
    lookAt_basis ⟨Real.cos, Real.sin, Real.tan, Real.sqrt, Real.pi⟩ rfl _ hd
  have hM := UpdateViewMatrix_rows ⟨Real.cos, Real.sin, Real.tan, Real.sqrt, Real.pi⟩ t _ _ _
    rfl rfl rfl
  refine ⟨_, _, _, rfl, rfl, rfl, hx, ?_, hz, ?_, ?_, hzx, hM, ?_, ?_, ?_, ?_⟩
  · rw [Dot_Cross_Cross, hz, hx, hzx]; norm_num
  · rw [Dot_comm, Dot_Cross_right]
  · exact Dot_Cross_left _ _
  · rw [hM]; exact lookAt_maps_eye _ _ _ _
  · rw [hM, lookAt_maps_target, hdz, hdx, hdy]
  · intro r sc; rfl
  · intro hp
    have e : UpdateViewMatrix ⟨Real.cos, Real.sin, Real.tan, Real.sqrt, Real.pi⟩ t =
        !![1, 0, 0, 0; 0, 1, 0, 0; 0, 0, 1, 0; 0, 0, 0, 1] := by
      ext i j
      fin_cases i <;> fin_cases j <;>
        simp [UpdateViewMatrix, Vec.Normalize, Vec.Cross, Vec.Dot, float3.sub, float3.neg, hp]
    rw [e]
    ext i j
    fin_cases i <;> fin_cases j <;> rfl

end Engine

namespace Engine

/-! ## The theorems at a concrete system -/

theorem demoSystem_ready {K : Type} [Field K] : Ready demoEnv (demoSystem : DrawingSystem K) := by
  simp [Ready, demoEnv, demoSystem, demoOrphanCamera, demoCameraEntity, demoMeshEntity]

theorem Tick_camera_without_renderer_witness :
    Ready demoEnv (demoSystem : DrawingSystem ℝ) ∧
    demoGlobal.GetRenderer (demoCamera 7 : CameraComponent ℝ).rendererType = none ∧
    tickCameras demoEnv ⟨Real.cos, Real.sin, Real.tan, Real.sqrt, Real.pi⟩ [demoOrphanCamera]
        (demoSystem : DrawingSystem ℝ) =
      some (emitAll
        [.UpdateContext,
         .UpdateCamera
           (UpdateProjectionMatrix ⟨Real.cos, Real.sin, Real.tan, Real.sqrt, Real.pi⟩
             1920 1080 (demoCamera 7))
           (UpdateViewMatrix ⟨Real.cos, Real.sin, Real.tan, Real.sqrt, Real.pi⟩ demoTransform),
         .ClearTarget (some 100) ⟨0, 0, 0, 1⟩,
         .ClearDepthBuffer (some 200) 1 0 .eClear_Depth] demoSystem) ∧
    ∃ s1, Tick demoEnv ⟨Real.cos, Real.sin, Real.tan, Real.sqrt, Real.pi⟩ 0
        (demoSystem : DrawingSystem ℝ) = some s1 ∧
      s1.log.length = 4 + (4 + 7) + 1 := by
  have h := Tick_camera_without_renderer demoEnv
    ⟨Real.cos, Real.sin, Real.tan, Real.sqrt, Real.pi⟩ (0 : ℝ) demoSystem demoGlobal
    ⟨some 100, some 200⟩ demoOrphanCamera (demoCamera 7) demoTransform rfl rfl
    (by simp [demoSystem]) (by simp [demoSystem]) rfl rfl (by simp [demoGlobal, demoCamera])
  refine ⟨demoSystem_ready, by simp [demoGlobal, demoCamera], h.1, ?_⟩
  obtain ⟨s1, h1, h2⟩ := h.2 [] [demoCameraEntity] rfl demoSystem_ready
  refine ⟨s1, h1, ?_⟩
  rw [h2]
  simp [demoSystem, demoCameraEntity, demoMeshEntity, meshViews, IEntity.asCamera,
    IEntity.asMesh, specCameraCalls, specFrameCalls, specMeshCalls, specDrawPass, demoGlobal,
    demoCamera]

theorem Tick_draw_pass_protocol_witness :
    Ready demoEnv (demoSystem : DrawingSystem ℝ) ∧
    ∃ s1 tr, Tick demoEnv ⟨Real.cos, Real.sin, Real.tan, Real.sqrt, Real.pi⟩ 0
        (demoSystem : DrawingSystem ℝ) = some s1 ∧
      s1.log = (demoSystem : DrawingSystem ℝ).log ++ tr ∧
      tr.filter Call.isDrawPass =
        [.BeginDrawPass 10, .AttachMesh 10 42, .FlushData 10, .Draw 10, .ResetData 10,
         .EndDrawPass 10] ∧
      (tr.filter Call.isDraw).length = 1 ∧
      tr.filter Call.isPresent = [.Present (some 100) 0] ∧
      tr.getLast? = some (.Present (some 100) 0) := by
  obtain ⟨s1, tr, h1, h2, _, h4, h5, _, _, h8, h9, _⟩ :=
    Tick_draw_pass_protocol demoEnv ⟨Real.cos, Real.sin, Real.tan, Real.sqrt, Real.pi⟩ (0 : ℝ)
      demoSystem demoGlobal ⟨some 100, some 200⟩ rfl rfl demoSystem_ready
  refine ⟨demoSystem_ready, s1, tr, h1, h2, ?_, ?_, h8, h9⟩
  · rw [h4]
    simp [demoSystem, demoCameraEntity, demoOrphanCamera, demoMeshEntity, cameraViews, meshViews,
      IEntity.asCamera, IEntity.asMesh, demoGlobal, demoCamera]
  · rw [h5]
    simp [demoSystem, demoCameraEntity, demoOrphanCamera, cameraViews, IEntity.asCamera,
      demoGlobal, demoCamera]

theorem Tick_transform_before_draw_witness :
    Ready demoEnv (demoSystem : DrawingSystem ℝ) ∧
    ∃ s1 tr, Tick demoEnv ⟨Real.cos, Real.sin, Real.tan, Real.sqrt, Real.pi⟩ 0
        (demoSystem : DrawingSystem ℝ) = some s1 ∧
      s1.log = (demoSystem : DrawingSystem ℝ).log ++ tr ∧
      transformsAtDraw none tr =
        [some (UpdateWorldMatrix ⟨Real.cos, Real.sin, Real.tan, Real.sqrt, Real.pi⟩
          demoTransform)] := by
  obtain ⟨s1, tr, h1, h2, _, h4⟩ :=
    Tick_transform_before_draw demoEnv ⟨Real.cos, Real.sin, Real.tan, Real.sqrt, Real.pi⟩ (0 : ℝ)
      demoSystem demoGlobal ⟨some 100, some 200⟩ rfl rfl demoSystem_ready
  refine ⟨demoSystem_ready, s1, tr, h1, h2, ?_⟩
  rw [h4]
  simp [demoSystem, demoCameraEntity, demoOrphanCamera, demoMeshEntity, cameraViews, meshViews,
    IEntity.asCamera, IEntity.asMesh, demoGlobal, demoCamera]

theorem PostConfiguration_build_gate_witness :
    failingBuildEnv.gpGlobal = some demoGlobal ∧
    (∃ s1 pre, PostConfiguration failingBuildEnv (demoSystem : DrawingSystem ℚ) = some (false, s1) ∧
      (∀ c ∈ pre, c.isPostBuild = false) ∧
      s1.log = (demoSystem : DrawingSystem ℚ).log ++ pre) ∧
    (∃ s1 pre, EstablishConfiguration demoEnv (DrawingSystem.new demoGlobal : DrawingSystem ℚ) =
        some (true, s1) ∧
      (∀ c ∈ pre, c.isPostBuild = false) ∧
      s1.log = pre ++ [.Flush, .CreateDataResources 10, .CreateDataResources 20,
        .MapResources 10, .MapResources 20]) := by
  refine ⟨rfl, ?_, ?_⟩
  · obtain ⟨s1, pre, h1, _, h3, h4⟩ :=
      (PostConfiguration_build_gate failingBuildEnv (demoSystem : DrawingSystem ℚ) demoGlobal
        ⟨some 100, some 200⟩ rfl (by simp [demoSystem]) (by simp [demoSystem]) rfl
        (by simp [demoSystem])).1
    exact ⟨s1, pre, h1, h3, by simpa [failingBuildEnv] using h4⟩
  · obtain ⟨s1, pre, h1, h3, h4⟩ :=
      (PostConfiguration_build_gate demoEnv (demoSystem : DrawingSystem ℚ) demoGlobal
        ⟨some 100, some 200⟩ rfl (by simp [demoSystem]) (by simp [demoSystem]) rfl
        (by simp [demoSystem])).2 (DrawingSystem.new demoGlobal) (Or.inl rfl) rfl
    have hreg : registeredRenderers s1 = [10, 20] := by
      have h1b : EstablishConfiguration demoEnv (DrawingSystem.new demoGlobal : DrawingSystem ℚ) =
          some (demoEnv.BuildResources, s1) := h1
      have : (EstablishConfiguration demoEnv (DrawingSystem.new demoGlobal :
          DrawingSystem ℚ)).map (fun r => registeredRenderers r.2) = some [10, 20] := rfl
      rw [h1b] at this
      simpa using this
    refine ⟨s1, pre, h1, h3, ?_⟩
    rw [h4, hreg]
    simp [demoEnv, DrawingSystem.new]

theorem UpdateProjectionMatrix_eq_witness :
    (demoCamera 1 : CameraComponent ℝ).clippingNear ≠ (demoCamera 1 : CameraComponent ℝ).clippingFar ∧
    UpdateProjectionMatrix ⟨Real.cos, Real.sin, Real.tan, Real.sqrt, Real.pi⟩ 1920 1080
        (demoCamera 1) 1 1 = 1 ∧
    UpdateProjectionMatrix ⟨Real.cos, Real.sin, Real.tan, Real.sqrt, Real.pi⟩ 1920 1080
        (demoCamera 1) 0 0 = 9 / 16 := by
  have hne : (demoCamera 1 : CameraComponent ℝ).clippingNear ≠
      (demoCamera 1 : CameraComponent ℝ).clippingFar := by
    simp only [demoCamera]; norm_num
  exact ⟨hne, (UpdateProjectionMatrix_eq (demoCamera 1) 1920 1080 hne (by decide)).2.1 rfl
    (by norm_num)⟩

theorem UpdateViewMatrix_lookAt_witness :
    ¬ ((demoTransform : TransformComponent ℝ).position.x = 0 ∧
      (demoTransform : TransformComponent ℝ).position.z = 1) ∧
    UpdateViewMatrix ⟨Real.cos, Real.sin, Real.tan, Real.sqrt, Real.pi⟩ demoTransform = 1 := by
  have hne : ¬ ((demoTransform : TransformComponent ℝ).position.x = 0 ∧
      (demoTransform : TransformComponent ℝ).position.z = 1) := by
    simp [demoTransform]
  obtain ⟨x, y, z, _, _, _, _, _, _, _, _, _, _, _, _, _, h⟩ :=
    UpdateViewMatrix_lookAt demoTransform hne
  exact ⟨hne, h rfl⟩

end Engine

namespace MiniRaytracing

theorem reflectance_bounds_witness :
    (0 : ℚ) ≤ 3 / 2 ∧ (0 : ℚ) ≤ 1 / 2 ∧ (1 / 2 : ℚ) ≤ 1 ∧
    reflectance (1 / 2 : ℚ) (3 / 2) = 7 / 100 ∧
    (1 / 25 : ℚ) ≤ reflectance (1 / 2 : ℚ) (3 / 2) ∧
    reflectance (1 / 2 : ℚ) (3 / 2) ≤ 1 := by
  have h := reflectance_bounds (1 / 2 : ℚ) (3 / 2) (by norm_num) (by norm_num) (by norm_num)
  refine ⟨by norm_num, by norm_num, by norm_num, ?_, ?_, h.2.2.2.1⟩
  · rw [h.1]; norm_num
  · have := h.2.2.1
    norm_num at this ⊢
    linarith

end MiniRaytracing
